import Mathlib

/-!
Verification of the query-understanding pipeline of the neo4j-csv-import
repository. The JavaScript sources under `src/context-knowledge-graph/` are
shallowly embedded: pure string manipulation becomes functions on `List Char`,
the asynchronous pipeline steps become total functions over explicit oracles
(`Except`-valued functions standing for the OpenAI and Neo4j calls), and the
module-level schema cache becomes an explicit state machine.  All definitions
are executable; theorems about them follow after the definitions.
-/

/-! ## JavaScript-style character and string primitives

`lcChar` is `String.prototype.toLowerCase` on one ASCII character,
`isSpaceJS` the character class `\s` (ASCII part), `isDigitJS` the class
`\d`, `isPfxOf`/`hasSubL` exact prefix/substring tests
(`String.prototype.includes`), and `isPrefixCI` the case-insensitive prefix
test used to mirror `/.../i` regexes and `toUpperCase().includes(..)`. -/

def lcChar (c : Char) : Char :=
  if 'A' ≤ c && c ≤ 'Z' then Char.ofNat (c.toNat + 32) else c

def isSpaceJS (c : Char) : Bool :=
  c == ' ' || c == '\t' || c == '\n' || c == '\r' ||
  c == Char.ofNat 11 || c == Char.ofNat 12

def isDigitJS (c : Char) : Bool :=
  c == '0' || c == '1' || c == '2' || c == '3' || c == '4' ||
  c == '5' || c == '6' || c == '7' || c == '8' || c == '9'

def isPfxOf : List Char → List Char → Bool
  | [], _ => true
  | _ :: _, [] => false
  | p :: ps, c :: cs => (c == p) && isPfxOf ps cs

def hasSubL (pat : List Char) : List Char → Bool
  | [] => pat.isEmpty
  | c :: r => isPfxOf pat (c :: r) || hasSubL pat r

/-- `hay.includes(pat)` on JavaScript strings. -/
def hasSubS (hay pat : String) : Bool :=
  hasSubL pat.data hay.data

/-- `s.toLowerCase()` (ASCII). -/
def lowerS (s : String) : String :=
  String.mk (s.data.map lcChar)

/-- Case-insensitive prefix test: the pattern is given in lower case. -/
def isPrefixCI : List Char → List Char → Bool
  | [], _ => true
  | _ :: _, [] => false
  | p :: ps, c :: cs => (lcChar c == p) && isPrefixCI ps cs

/-- `parseInt` on a non-empty all-digit string. -/
def natOfDigits (l : List Char) : Nat :=
  l.foldl (fun acc c => acc * 10 + (c.toNat - 48)) 0

namespace queryEngine

/-! ## `optimizeCypher` (src/context-knowledge-graph/queryEngine.js)

```js
function optimizeCypher(cypher) {
  let optimized = cypher.trim();
  optimized = optimized.replace(/```cypher\n?/gi, '').replace(/```\n?/g, '');
  if (!optimized.toUpperCase().includes("LIMIT")) {
    if (optimized.endsWith(";")) optimized = optimized.slice(0, -1) + " LIMIT 100;";
    else optimized += " LIMIT 100";
  }
  const limitMatch = optimized.match(/LIMIT\s+(\d+)/i);
  if (limitMatch) {
    const limit = parseInt(limitMatch[1]);
    if (limit > 100) optimized = optimized.replace(/LIMIT\s+\d+/i, "LIMIT 100");
  }
  return optimized;   // (a console.warn has no effect on the result)
}
```
-/

/-- The word scanned for by `toUpperCase().includes("LIMIT")` and by the
`/LIMIT\s+(\d+)/i` regex, lower-cased. -/
def limitWord : List Char := ['l', 'i', 'm', 'i', 't']

/-- `toUpperCase().includes("LIMIT")` (case-insensitive substring scan). -/
def hasLimitCI : List Char → Bool
  | [] => false
  | c :: r => isPrefixCI limitWord (c :: r) || hasLimitCI r

/-- The regex `/LIMIT\s+(\d+)/i` anchored at the start of `s`: on a match,
the captured number's value and the remainder of the string after the whole
matched span. -/
def matchLimitAt (s : List Char) : Option (Nat × List Char) :=
  if isPrefixCI limitWord s then
    let r5 := s.drop 5
    let ws := r5.takeWhile isSpaceJS
    if ws.isEmpty then none
    else
      let rw := r5.dropWhile isSpaceJS
      let ds := rw.takeWhile isDigitJS
      if ds.isEmpty then none
      else some (natOfDigits ds, rw.dropWhile isDigitJS)
  else none

/-- The number captured by the first (leftmost) match of `/LIMIT\s+(\d+)/i`,
i.e. `parseInt(optimized.match(/LIMIT\s+(\d+)/i)[1])` when the match exists. -/
def firstLimitVal : List Char → Option Nat
  | [] => none
  | c :: r =>
    match matchLimitAt (c :: r) with
    | some (v, _) => some v
    | none => firstLimitVal r

/-- The replacement text `"LIMIT 100"`. -/
def limit100 : List Char := ['L', 'I', 'M', 'I', 'T', ' ', '1', '0', '0']

/-- `optimized.replace(/LIMIT\s+\d+/i, "LIMIT 100")`: the first match is
replaced, the rest of the string is kept. -/
def replaceFirstLimit : List Char → List Char
  | [] => []
  | c :: r =>
    match matchLimitAt (c :: r) with
    | some (_, rem) => limit100 ++ rem
    | none => c :: replaceFirstLimit r

/-- `String.prototype.trim` (ASCII whitespace). -/
def trimJS (s : List Char) : List Char :=
  ((s.dropWhile isSpaceJS).reverse.dropWhile isSpaceJS).reverse

/-- The backquote character. -/
def backquote : Char := Char.ofNat 96

/-- Drop one leading newline, as the `\n?` at the end of the fence regexes. -/
def dropNL (s : List Char) : List Char :=
  if s.head? = some '\n' then s.tail else s

/-- One global, case-insensitive pass of `replace(pat, '')` where the regex is
the literal pattern followed by `\n?`: scanning left to right, each
non-overlapping occurrence and one following newline are removed.  The fuel
argument (instantiated with the list's length, which bounds the scan) keeps
the recursion structural so that the function evaluates by reduction. -/
def stripPassAux (p0 : Char) (ps : List Char) : Nat → List Char → List Char
  | 0, s => s
  | _ + 1, [] => []
  | fuel + 1, c :: r =>
    if isPrefixCI (p0 :: ps) (c :: r) then
      stripPassAux p0 ps fuel (dropNL ((c :: r).drop (p0 :: ps).length))
    else c :: stripPassAux p0 ps fuel r

/-- One global pass of `replace` with empty replacement over the whole
string. -/
def stripPass (p0 : Char) (ps : List Char) (s : List Char) : List Char :=
  stripPassAux p0 ps s.length s

/-- `replace(/```cypher\n?/gi, '')` then `replace(/```\n?/g, '')`.  The
second pattern has no letters, so the shared case-insensitive scanner matches
it exactly. -/
def stripFences (s : List Char) : List Char :=
  stripPass backquote (backquote :: backquote :: ['c', 'y', 'p', 'h', 'e', 'r'])
    s |> stripPass backquote [backquote, backquote]

/-- The first two statements of `optimizeCypher`: trim, then remove markdown
code fences. -/
def cleanCypher (s : List Char) : List Char :=
  stripFences (trimJS s)

/-- The `if (!optimized.toUpperCase().includes("LIMIT"))` block. -/
def addLimit (s : List Char) : List Char :=
  if hasLimitCI s then s
  else if s.getLast? = some ';' then
    s.dropLast ++ (" LIMIT 100;".data)
  else
    s ++ (" LIMIT 100".data)

/-- The `limitMatch` block: when the first numeric LIMIT exceeds 100 the
first `/LIMIT\s+\d+/i` occurrence is replaced with `LIMIT 100`. -/
def capLimit (s : List Char) : List Char :=
  match firstLimitVal s with
  | some v => if v > 100 then replaceFirstLimit s else s
  | none => s

/-- `optimizeCypher` on character lists. -/
def optimizeCypherL (s : List Char) : List Char :=
  capLimit (addLimit (cleanCypher s))

/-- `optimizeCypher` (src/context-knowledge-graph/queryEngine.js, lines 98-129). -/
def optimizeCypher (s : String) : String :=
  String.mk (optimizeCypherL s.data)

/-! ## `answerUserQuery` (src/context-knowledge-graph/queryEngine.js, lines 12-93)

The pipeline's effects are oracles: `genO n` is what the
`openai.chat.completions.create` call inside `generateCypher` produces on
generation attempt `n` (`.error` when that attempt throws), `execO c n` what
`runCypherReadOnly(c)` produces on execution attempt `n`, `jsonStr` the
serialization `JSON.stringify(rows, null, 2)`, and `verbO p` the completion
call of `verbalizeAnswer` on the assembled user prompt `p`.  An event trace
records every external interaction and timed sleep in order. -/

/-- One observable step of `answerUserQuery`: a generation call to the LLM
(carrying only the user question, as `generateCypher(userQuestion)` does), a
`setTimeout` sleep in milliseconds, one `runCypherReadOnly` execution attempt
with the query it was given, or the verbalization call. -/
inductive Ev where
  | llmGen (attempt : Nat) (question : String)
  | sleep (ms : Nat)
  | exec (attempt : Nat) (cypher : String)
  | llmVerbalize (question : String)
deriving DecidableEq, Repr

/-- The value `answerUserQuery` resolves with: either the success object
`{cypher, data, answer}` or the structured error object `{error, details}`
built in the catch block. -/
inductive QEResult (α : Type) where
  | ok (cypher : String) (data : List α) (answer : String)
  | err (message details : String)
deriving DecidableEq, Repr

def msgInvalidQuery : String :=
  "I couldn't generate a valid query for your question. Please try rephrasing it."

def msgExecFailed : String :=
  "The database query failed to execute. Please try again or contact support."

def msgUnderstand : String :=
  "I had trouble understanding your question. Could you rephrase it?"

def msgUnexpected : String :=
  "An unexpected error occurred while processing your question."

/-- The catch block of `answerUserQuery` (lines 61-92): classify the thrown
message into one of four fixed user-facing strings, and keep the raw message
as `details`. -/
def classifyCatch (α : Type) (e : String) : QEResult α :=
  if hasSubS e "SyntaxError" || hasSubS e "Invalid syntax" ||
      hasSubS e "Unknown function" then
    .err msgInvalidQuery e
  else if hasSubS e "execution failed" then
    .err msgExecFailed e
  else if hasSubS e "Failed to generate" then
    .err msgUnderstand e
  else
    .err msgUnexpected e

/-- Step 1 of `answerUserQuery`: the generation loop (`for attempt = 1..2`).
On success the generated text is passed through `optimizeCypher`; a first
failure sleeps 500 ms and retries once; a second failure throws
`"Failed to generate query: " + message`. -/
def genLoop (genO : Nat → Except String String) (q : String) :
    Except String String × List Ev :=
  match genO 1 with
  | .ok c => (.ok (optimizeCypher c), [.llmGen 1 q])
  | .error _ =>
    match genO 2 with
    | .ok c => (.ok (optimizeCypher c), [.llmGen 1 q, .sleep 500, .llmGen 2 q])
    | .error e2 =>
      (.error ("Failed to generate query: " ++ e2),
       [.llmGen 1 q, .sleep 500, .llmGen 2 q])

/-- Step 2 of `answerUserQuery`: the execution loop (`for attempt = 1..3`).
The same `cypher` string is passed to the store on every attempt; after a
failed attempt `n < 3` the loop sleeps `1000 * n` ms; a third failure throws
`"Query execution failed after 3 attempts: " + message`. -/
def execLoop (α : Type) (execO : String → Nat → Except String (List α))
    (c : String) : Except String (List α) × List Ev :=
  match execO c 1 with
  | .ok d => (.ok d, [.exec 1 c])
  | .error _ =>
    match execO c 2 with
    | .ok d => (.ok d, [.exec 1 c, .sleep 1000, .exec 2 c])
    | .error _ =>
      match execO c 3 with
      | .ok d =>
        (.ok d, [.exec 1 c, .sleep 1000, .exec 2 c, .sleep 2000, .exec 3 c])
      | .error e3 =>
        (.error ("Query execution failed after 3 attempts: " ++ e3),
         [.exec 1 c, .sleep 1000, .exec 2 c, .sleep 2000, .exec 3 c])

/-- `MAX_RESULTS` of `verbalizeAnswer`. -/
def MAX_RESULTS : Nat := 50

/-- `MAX_JSON_LENGTH` of `verbalizeAnswer`. -/
def MAX_JSON_LENGTH : Nat := 50000

/-- The truncation stage of `verbalizeAnswer` (lines 158-176): slice to
`MAX_RESULTS` rows with a counting note, then, if the serialized JSON is
still over `MAX_JSON_LENGTH` characters, slice to `MAX_RESULTS / 2` rows and
replace the note.  Returns the rows that will be embedded in the prompt and
the truncation note. -/
def truncateForPrompt (α : Type) (jsonStr : List α → String) (data : List α) :
    List α × String :=
  let t1 := if data.length > MAX_RESULTS then data.take MAX_RESULTS else data
  let note1 :=
    if data.length > MAX_RESULTS then
      "\n\n[Note: Showing " ++ toString MAX_RESULTS ++ " of " ++
        toString data.length ++ " total results]"
    else ""
  if (jsonStr t1).length > MAX_JSON_LENGTH then
    let t2 := t1.take (MAX_RESULTS / 2)
    (t2, "\n\n[Note: Results truncated due to size. Showing " ++
      toString t2.length ++ " results]")
  else (t1, note1)

/-- The user-message content `verbalizeAnswer` sends to the completion call:
question, serialized (truncated) rows, and the truncation note appended. -/
def userPrompt (α : Type) (jsonStr : List α → String) (q : String)
    (data : List α) : String :=
  let td := truncateForPrompt α jsonStr data
  "User question: " ++ q ++ "\n\nDatabase result:\n" ++ jsonStr td.1 ++ td.2

/-- `verbalizeAnswer` (lines 158-194): truncate, build the prompt, and ask
the completion oracle. -/
def verbalizeAnswer (α : Type) (jsonStr : List α → String)
    (verbO : String → Except String String) (q : String) (data : List α) :
    Except String String :=
  verbO (userPrompt α jsonStr q data)

/-- `answerUserQuery` (lines 12-93): generation loop, execution loop,
verbalization, with every thrown message classified by the catch block.
Returns the resolved value and the trace of external events. -/
def answerUserQuery (α : Type) (genO : Nat → Except String String)
    (execO : String → Nat → Except String (List α))
    (jsonStr : List α → String) (verbO : String → Except String String)
    (question : String) : QEResult α × List Ev :=
  match genLoop genO question with
  | (.error e, evs) => (classifyCatch α e, evs)
  | (.ok cypher, evs) =>
    match execLoop α execO cypher with
    | (.error e, evs2) => (classifyCatch α e, evs ++ evs2)
    | (.ok data, evs2) =>
      match verbalizeAnswer α jsonStr verbO question data with
      | .error e =>
        (classifyCatch α e, evs ++ evs2 ++ [.llmVerbalize question])
      | .ok answer =>
        (QEResult.ok cypher data answer, evs ++ evs2 ++ [.llmVerbalize question])

/-- `true` exactly on LLM events (generation or verbalization calls): used to
state that no language-model call happens between or after execution
attempts. -/
def Ev.isLlmCall : Ev → Bool
  | .llmGen _ _ => true
  | .llmVerbalize _ => true
  | _ => false

/-- `true` exactly on execution-attempt events. -/
def Ev.isExec : Ev → Bool
  | .exec _ _ => true
  | _ => false

/-- How many language-model calls appear in the trace at or after the first
execution attempt: under the claimed repair policy this would be positive
after a malformed-query failure. -/
def countLlmAfterFirstExec (evs : List Ev) : Nat :=
  ((evs.dropWhile fun e => !e.isExec).filter Ev.isLlmCall).length

/-- The number of execution attempts in a trace. -/
def execCount (evs : List Ev) : Nat :=
  (evs.filter Ev.isExec).length

end queryEngine

namespace schemaMetadata

/-! ## `getSchema` (src/context-knowledge-graph/schemaMetadata.js, lines 16-143)

```js
let schemaCache = null;
export async function getSchema() {
  if (schemaCache) return schemaCache;
  try {
    const [...] = await Promise.all([ ...four introspection queries... ]);
    const schema = \x7b ... \x7d;       // a fresh object per call
    schemaCache = schema;
    return schema;
  } catch (error) { ... throw error; }
}
```

Under Node's cooperative concurrency a call runs synchronously from entry to
its first `await`: it reads `schemaCache` and, on a miss, fires the
`Promise.all` of discovery queries before suspending.  When the queries
resolve, the call builds its own fresh `schema` object, overwrites
`schemaCache` with it and returns it.  The embedding makes those two atomic
phases explicit; descriptor instances are numbered so that object identity
("the identical descriptor instance") is expressible. -/

/-- The module-level state: the `schemaCache` variable (holding a descriptor
instance number when populated), a count of discovery passes issued against
the store, and the next fresh instance number. -/
structure SchemaState where
  cache : Option Nat
  discoveries : Nat
  nextDescriptor : Nat
deriving DecidableEq, Repr

/-- The state before the first call: `schemaCache = null`. -/
def initialState : SchemaState :=
  { cache := none, discoveries := 0, nextDescriptor := 0 }

/-- The synchronous prefix of `getSchema`, from entry to the first `await`:
`if (schemaCache) return schemaCache;` and, on a miss, the `Promise.all`
issuing one discovery pass.  Returns `some d` when the call returns the
cached instance `d` immediately, `none` when it suspends with a discovery in
flight. -/
def getSchemaStart (s : SchemaState) : SchemaState × Option Nat :=
  match s.cache with
  | some d => (s, some d)
  | none => ({ s with discoveries := s.discoveries + 1 }, none)

/-- The resumption of a suspended `getSchema` call once its discovery queries
resolve: build a fresh `schema` object, store it in `schemaCache`, return
it. -/
def getSchemaFinish (s : SchemaState) : SchemaState × Nat :=
  ({ s with cache := some s.nextDescriptor,
            nextDescriptor := s.nextDescriptor + 1 },
   s.nextDescriptor)

/-- `n` calls all entering `getSchema` (each running to its first `await`)
before any discovery completes: the state after their synchronous
prefixes. -/
def startN : Nat → SchemaState → SchemaState
  | 0, s => s
  | n + 1, s => startN n (getSchemaStart s).1

/-- The run in which two concurrent callers A and B both enter `getSchema`
before either discovery completes, then finish in order: final state and the
descriptor instances A and B receive. -/
def concurrentTwoRun : SchemaState × Nat × Nat :=
  let sA := (getSchemaStart initialState).1
  let sB := (getSchemaStart sA).1
  let fA := getSchemaFinish sB
  let fB := getSchemaFinish fA.1
  (fB.1, fA.2, fB.2)

end schemaMetadata

namespace queryUnderstandingV1

/-! ## src/context-knowledge-graph/queryUnderstanding.js (generative variant)

The first variant in that file: schema-grounded generative translation
(`generateCypherFromSchema`), execution, and `narrateResults`, wrapped by its
`answerUserQuery` (lines 236-287 of the concatenated file). -/

/-- A JavaScript value in a result row, as far as `narrateResults` inspects
one: `typeof value` and, for the direct formatting, the value itself. -/
inductive JsVal where
  | num (n : Int)
  | bool (b : Bool)
  | str (s : String)
  | other
deriving DecidableEq, Repr

/-- A result row: the ordered fields of the object `record.toObject()`
returns, so `Object.keys(row)` is the list of first components. -/
abbrev Row : Type := List (String × JsVal)

/-- What `narrateResults` does before (or instead of) calling the completion
backend: either a directly formatted answer string, or a call to the
narration LLM carrying the rows. -/
inductive NarrateOut where
  | direct (answer : String)
  | llm (data : List Row)
deriving DecidableEq

/-- The empty-result message for `expectsResults === false`. -/
def notTrackedMessage : String :=
  "The knowledge graph doesn't contain data matching your query. The requested information may not exist in the current dataset."

/-- The empty-result message otherwise. -/
def noResultsMessage : String :=
  "No results found. This could mean the data doesn't exist or the query filters were too restrictive."

/-- `key.replace(/_/g, ' ')`. -/
def underscoresToSpaces (k : String) : String :=
  String.mk (k.data.map fun c => if c = '_' then ' ' else c)

/-- `narrateResults` (lines 188-234) up to the LLM call: `data` is `null`
(`none`) or a row list, `expectsResults` the translator's flag (`none` when
the JSON field was absent).  Empty results yield one of two fixed messages
chosen by `expectsResults === false`; a single-row single-column result whose
value is a number or a boolean is formatted directly; everything else goes to
the narration LLM. -/
def narrateResults (data? : Option (List Row)) (expectsResults : Option Bool) :
    NarrateOut :=
  let isEmpty := match data? with
    | none => true
    | some d => d.isEmpty
  if isEmpty then
    if expectsResults = some false then .direct notTrackedMessage
    else .direct noResultsMessage
  else
    let d := data?.getD []
    match d with
    | [row] =>
      match row with
      | [(k, v)] =>
        match v with
        | .num n =>
          .direct ("The " ++ underscoresToSpaces k ++ " is " ++ toString n ++ ".")
        | .bool b =>
          .direct (if b then "Yes, this data exists in the knowledge graph."
                   else "No, this data doesn't exist in the knowledge graph.")
        | _ => .llm d
      | _ => .llm d
    | _ => .llm d

/-- The structured response `generateCypherFromSchema` parses out of the
model's JSON: reasoning, the Cypher text, bound parameters, and the
`expectsResults` flag. -/
structure GenOut where
  reasoning : String
  cypher : String
  parameters : List (String × String)
  expectsResults : Option Bool
deriving DecidableEq, Repr

/-- The value this variant's `answerUserQuery` resolves with: the success
object `{answer, data, cypher, reasoning, confidence}` or the catch block's
`{answer, error, confidence: 0}`. -/
inductive V1Result where
  | success (answer : String) (data : List Row) (cypher reasoning : String)
      (confidence : ℚ)
  | failure (answer : String) (error : String) (confidence : ℚ)
deriving DecidableEq

/-- The catch block (lines 269-286): Neo4j/Cypher validation failures get one
apologetic message, everything else another; both carry the raw message in
the `error` field and confidence 0. -/
def catchBlock (e : String) : V1Result :=
  if hasSubS e "Neo4j" || hasSubS e "Cypher" then
    .failure "I couldn't generate a valid query for that question. Could you rephrase it or be more specific?" e 0
  else
    .failure "An error occurred while processing your question. Please try again." e 0

/-- `answerUserQuery` (lines 236-287).  `schemaO` is the `getSchema()` call
(its value is only fed to the prompt, so `Unit` here), `genO` the generation
call with JSON parsing, `execO cypher params` the `runCypherReadOnly` call,
and `narrO` the narration LLM used when `narrateResults` does not answer
directly.  On success, confidence is `data.length > 0 ? 1.0 : 0.0`. -/
def answerUserQuery (schemaO : Except String Unit)
    (genO : Except String GenOut)
    (execO : String → List (String × String) → Except String (List Row))
    (narrO : List Row → Except String String) : V1Result :=
  match schemaO with
  | .error e => catchBlock e
  | .ok _ =>
    match genO with
    | .error e => catchBlock e
    | .ok g =>
      match execO g.cypher g.parameters with
      | .error e => catchBlock e
      | .ok data =>
        match narrateResults (some data) g.expectsResults with
        | .direct answer =>
          .success answer data g.cypher g.reasoning
            (if data.length > 0 then 1 else 0)
        | .llm d =>
          match narrO d with
          | .error e => catchBlock e
          | .ok answer =>
            .success answer data g.cypher g.reasoning
              (if data.length > 0 then 1 else 0)

end queryUnderstandingV1

namespace queryUnderstandingV2

/-! ## src/context-knowledge-graph/queryUnderstanding.js (intent variant)

The second variant in that file: rule-based intent classification
(`classifyIntent`, lines 772-815 of the concatenated file), the fixed
catalog `INTENT_QUERIES` (lines 331-765), and its `answerUserQuery`
(lines 849-921). -/

/-- The enumerated intent set `INTENTS`. -/
inductive Intent where
  | ISSUE_SEVERITY
  | ISSUE_TRENDS
  | PRODUCT_ISSUES
  | ISSUE_TIMELINE
  | SOLUTION_EFFECTIVENESS
  | SOLUTION_FOR_ISSUE
  | EXPERIMENTAL_SOLUTIONS
  | SOLUTION_SUCCESS_RATE
  | PRODUCT_HEALTH
  | PRODUCT_COMPARISON
  | PRODUCT_IMPROVEMENT
  | SOURCE_RELIABILITY
  | EXPERT_CONSENSUS
  | USER_CONTRIBUTION
  | ISSUE_ROOT_CAUSE
  | COMMON_PATTERNS
deriving DecidableEq, Repr

open Intent

/-- `classifyIntent` on the already lower-cased question text: the fixed
priority chain of `includes` tests, with `ISSUE_SEVERITY` as the default. -/
def classifyIntentLower (q : String) : Intent :=
  if hasSubS q "severe" || hasSubS q "worst" || hasSubS q "critical" ||
      hasSubS q "priority" then ISSUE_SEVERITY
  else if hasSubS q "trend" || hasSubS q "emerging" || hasSubS q "new issue" then
    ISSUE_TRENDS
  else if hasSubS q "problem" && (hasSubS q "with" || hasSubS q "on") then
    PRODUCT_ISSUES
  else if hasSubS q "when" && hasSubS q "start" then ISSUE_TIMELINE
  else if (hasSubS q "fix" || hasSubS q "solve") &&
      (hasSubS q "best" || hasSubS q "work") then SOLUTION_EFFECTIVENESS
  else if (hasSubS q "fix" || hasSubS q "solve") && !hasSubS q "best" then
    SOLUTION_FOR_ISSUE
  else if hasSubS q "experimental" then EXPERIMENTAL_SOLUTIONS
  else if hasSubS q "success rate" then SOLUTION_SUCCESS_RATE
  else if hasSubS q "health" || hasSubS q "problematic" || hasSubS q "reliable" then
    PRODUCT_HEALTH
  else if hasSubS q "compare" || hasSubS q "vs" || hasSubS q "versus" then
    PRODUCT_COMPARISON
  else if hasSubS q "getting better" || hasSubS q "improving" then
    PRODUCT_IMPROVEMENT
  else if hasSubS q "source" && hasSubS q "reliable" then SOURCE_RELIABILITY
  else if hasSubS q "expert" then EXPERT_CONSENSUS
  else if hasSubS q "why" || hasSubS q "cause" || hasSubS q "reason" then
    ISSUE_ROOT_CAUSE
  else ISSUE_SEVERITY

/-- `classifyIntent` (lines 772-815): `const q = question.toLowerCase();`
followed by the keyword chain. -/
def classifyIntent (question : String) : Intent :=
  classifyIntentLower (lowerS question)

/-- The fixed weighted query `INTENT_QUERIES[INTENTS.ISSUE_SEVERITY]` (a brace of
the source text is written here as its escape). -/
def cypher_ISSUE_SEVERITY : String :=
  "
MATCH (u:User)-[:AUTHORED]->(r:Report)-[m:MENTIONS]->(i:Issue)
WHERE r.confidence_score >= 0.4
WITH i,
     count(DISTINCT r) AS frequency,
     avg(r.confidence_score) AS avg_confidence,
     avg(m.evidence_strength) AS avg_evidence,
     sum(CASE m.certainty_level 
       WHEN 'high' THEN 2.0
       WHEN 'medium' THEN 1.5
       ELSE 1.0 END) AS certainty_weight,
     sum(CASE u.user_expertise_level
       WHEN 'expert' THEN 2.0
       WHEN 'intermediate' THEN 1.5
       WHEN 'novice' THEN 1.0
       ELSE 0.8 END) AS expertise_weight,
     duration.between(i.last_seen_timestamp, datetime()).days AS days_since
WITH i,
     frequency,
     avg_confidence,
     avg_evidence,
     (frequency * avg_confidence * avg_evidence * certainty_weight * expertise_weight) / (1 + days_since * 0.1) AS severity_score
ORDER BY severity_score DESC
WITH collect(\x7b
  issue: i.issue_title,
  category: i.category,
  score: severity_score,
  frequency: frequency,
  avg_confidence: avg_confidence,
  days_since: days_since
\x7d) AS rows
UNWIND range(0, size(rows)-1) AS idx
RETURN rows[idx].issue AS issue,
       rows[idx].category AS category,
       round(rows[idx].score * 100) / 100 AS severity_score,
       rows[idx].frequency AS report_count,
       round(rows[idx].avg_confidence * 100) / 100 AS avg_confidence,
       rows[idx].days_since AS days_since_last_seen,
       idx + 1 AS rank
LIMIT 10
"

/-- The fixed weighted query `INTENT_QUERIES[INTENTS.ISSUE_TRENDS]` (a brace of
the source text is written here as its escape). -/
def cypher_ISSUE_TRENDS : String :=
  "
MATCH (r:Report)-[:MENTIONS]->(i:Issue)
WHERE duration.between(i.first_seen_timestamp, datetime()).days <= 90
WITH i,
     count(DISTINCT r) AS frequency,
     duration.between(i.first_seen_timestamp, datetime()).days AS days_old,
     duration.between(i.first_seen_timestamp, i.last_seen_timestamp).days AS duration_active
WITH i,
     frequency,
     days_old,
     duration_active,
     (frequency * 30.0) / (days_old + 1) AS velocity_score
ORDER BY velocity_score DESC
WITH collect(\x7b
  issue: i.issue_title,
  category: i.category,
  score: velocity_score,
  frequency: frequency,
  days_old: days_old,
  first_seen: i.first_seen_timestamp
\x7d) AS rows
UNWIND range(0, size(rows)-1) AS idx
RETURN rows[idx].issue AS issue,
       rows[idx].category AS category,
       round(rows[idx].score * 100) / 100 AS velocity_score,
       rows[idx].frequency AS report_count,
       rows[idx].days_old AS days_since_emergence,
       toString(rows[idx].first_seen) AS first_seen,
       idx + 1 AS rank
LIMIT 10
"

/-- The fixed weighted query `INTENT_QUERIES[INTENTS.PRODUCT_ISSUES]` (a brace of
the source text is written here as its escape). -/
def cypher_PRODUCT_ISSUES : String :=
  "
MATCH (r:Report)-[:ABOUT_PRODUCT]->(p:Product)
MATCH (r)-[m:MENTIONS]->(i:Issue)
WHERE toLower(p.name) CONTAINS toLower($product)
  AND r.confidence_score >= 0.4
WITH i,
     p,
     count(DISTINCT r) AS frequency,
     avg(r.confidence_score) AS avg_confidence,
     avg(m.evidence_strength) AS avg_evidence
WITH i,
     p.name AS product,
     frequency,
     (frequency * avg_confidence * avg_evidence) AS impact_score
ORDER BY impact_score DESC
WITH collect(\x7b
  issue: i.issue_title,
  category: i.category,
  product: product,
  score: impact_score,
  frequency: frequency
\x7d) AS rows
UNWIND range(0, size(rows)-1) AS idx
RETURN rows[idx].issue AS issue,
       rows[idx].category AS category,
       rows[idx].product AS product,
       round(rows[idx].score * 100) / 100 AS impact_score,
       rows[idx].frequency AS report_count,
       idx + 1 AS rank
LIMIT 10
"

/-- The fixed weighted query `INTENT_QUERIES[INTENTS.SOLUTION_EFFECTIVENESS]` (a brace of
the source text is written here as its escape). -/
def cypher_SOLUTION_EFFECTIVENESS : String :=
  "
MATCH (u:User)-[:AUTHORED]->(r:Report)-[c:CONFIRMS]->(s:Solution)
WITH s,
     count(DISTINCT r) AS confirmations,
     avg(c.confirmation_strength) AS avg_strength,
     sum(CASE c.post_fix_outcome
       WHEN 'resolved' THEN 1.0
       WHEN 'improved' THEN 0.7
       WHEN 'no_change' THEN 0.3
       ELSE 0.0 END) AS success_score,
     sum(CASE u.user_expertise_level
       WHEN 'expert' THEN 2.0
       WHEN 'intermediate' THEN 1.5
       ELSE 1.0 END) AS expertise_weight,
     collect(DISTINCT c.post_fix_outcome) AS outcomes
WITH s,
     confirmations,
     avg_strength,
     success_score,
     expertise_weight,
     outcomes,
     (confirmations * avg_strength * success_score * s.solution_effectiveness_score * expertise_weight) / confirmations AS effectiveness_score
ORDER BY effectiveness_score DESC
WITH collect(\x7b
  solution: s.solution_title,
  type: s.solution_type,
  category: s.category,
  score: effectiveness_score,
  confirmations: confirmations,
  effectiveness: s.solution_effectiveness_score,
  outcomes: outcomes
\x7d) AS rows
UNWIND range(0, size(rows)-1) AS idx
RETURN rows[idx].solution AS solution,
       rows[idx].type AS solution_type,
       rows[idx].category AS category,
       round(rows[idx].score * 100) / 100 AS effectiveness_score,
       rows[idx].confirmations AS confirmation_count,
       round(rows[idx].effectiveness * 100) / 100 AS stated_effectiveness,
       rows[idx].outcomes AS outcomes,
       idx + 1 AS rank
LIMIT 10
"

/-- The fixed weighted query `INTENT_QUERIES[INTENTS.SOLUTION_FOR_ISSUE]` (a brace of
the source text is written here as its escape). -/
def cypher_SOLUTION_FOR_ISSUE : String :=
  "
MATCH (i:Issue)<-[:MENTIONS]-(r:Report)
WHERE toLower(i.issue_title) CONTAINS toLower($issue) OR toLower(i.category) CONTAINS toLower($issue)
WITH i LIMIT 1
MATCH (r2:Report)-[:MENTIONS]->(i)
MATCH (r2)-[rel]->(s:Solution)
WHERE type(rel) IN ['SUGGESTS', 'CONFIRMS']
WITH s,
     count(DISTINCT CASE WHEN type(rel) = 'CONFIRMS' THEN r2 END) AS confirms,
     count(DISTINCT CASE WHEN type(rel) = 'SUGGESTS' THEN r2 END) AS suggests,
     avg(CASE WHEN type(rel) = 'CONFIRMS' THEN rel.confirmation_strength ELSE rel.suggestion_confidence END) AS avg_strength,
     s.solution_effectiveness_score AS effectiveness
WITH s,
     confirms,
     suggests,
     (confirms * 2.0 + suggests * 0.5) * avg_strength * effectiveness AS confidence_score
ORDER BY confidence_score DESC
WITH collect(\x7b
  solution: s.solution_title,
  description: s.solution_description,
  type: s.solution_type,
  score: confidence_score,
  confirms: confirms,
  suggests: suggests,
  effectiveness: effectiveness
\x7d) AS rows
UNWIND range(0, size(rows)-1) AS idx
RETURN rows[idx].solution AS solution,
       rows[idx].description AS description,
       rows[idx].type AS solution_type,
       round(rows[idx].score * 100) / 100 AS confidence_score,
       rows[idx].confirms AS confirmations,
       rows[idx].suggests AS suggestions,
       round(rows[idx].effectiveness * 100) / 100 AS effectiveness,
       idx + 1 AS rank
LIMIT 5
"

/-- The fixed weighted query `INTENT_QUERIES[INTENTS.PRODUCT_HEALTH]` (a brace of
the source text is written here as its escape). -/
def cypher_PRODUCT_HEALTH : String :=
  "
MATCH (r:Report)-[:ABOUT_PRODUCT]->(p:Product)
MATCH (r)-[:MENTIONS]->(i:Issue)
WHERE r.confidence_score >= 0.4
WITH p,
     count(DISTINCT i) AS issue_count,
     count(DISTINCT r) AS report_count,
     avg(r.confidence_score) AS avg_confidence,
     duration.between(min(r.timestamp), max(r.timestamp)).days AS activity_span
WITH p,
     issue_count,
     report_count,
     avg_confidence,
     activity_span,
     (issue_count * report_count * avg_confidence) / (1 + activity_span * 0.01) AS health_score
ORDER BY health_score DESC
WITH collect(\x7b
  product: p.name,
  category: p.category,
  score: health_score,
  issues: issue_count,
  reports: report_count,
  confidence: avg_confidence
\x7d) AS rows
UNWIND range(0, size(rows)-1) AS idx
RETURN rows[idx].product AS product,
       rows[idx].category AS category,
       round(rows[idx].score * 100) / 100 AS health_score,
       rows[idx].issues AS unique_issues,
       rows[idx].reports AS total_reports,
       round(rows[idx].confidence * 100) / 100 AS avg_confidence,
       idx + 1 AS rank
LIMIT 15
"

/-- The fixed weighted query `INTENT_QUERIES[INTENTS.EXPERT_CONSENSUS]` (a brace of
the source text is written here as its escape). -/
def cypher_EXPERT_CONSENSUS : String :=
  "
MATCH (u:User)-[:AUTHORED]->(r:Report)-[:MENTIONS]->(i:Issue)
WHERE u.user_expertise_level IN ['expert', 'intermediate']
  AND r.confidence_score >= 0.6
WITH i,
     count(DISTINCT u) AS expert_count,
     count(DISTINCT r) AS report_count,
     avg(r.confidence_score) AS avg_confidence,
     collect(DISTINCT u.user_expertise_level) AS expertise_levels
WITH i,
     expert_count,
     report_count,
     avg_confidence,
     expertise_levels,
     expert_count * report_count * avg_confidence AS consensus_score
ORDER BY consensus_score DESC
WITH collect(\x7b
  issue: i.issue_title,
  category: i.category,
  score: consensus_score,
  experts: expert_count,
  reports: report_count,
  expertise: expertise_levels
\x7d) AS rows
UNWIND range(0, size(rows)-1) AS idx
RETURN rows[idx].issue AS issue,
       rows[idx].category AS category,
       round(rows[idx].score * 100) / 100 AS consensus_score,
       rows[idx].experts AS expert_count,
       rows[idx].reports AS report_count,
       rows[idx].expertise AS expertise_levels,
       idx + 1 AS rank
LIMIT 10
"

/-- The fixed weighted query `INTENT_QUERIES[INTENTS.SOURCE_RELIABILITY]` (a brace of
the source text is written here as its escape). -/
def cypher_SOURCE_RELIABILITY : String :=
  "
MATCH (r:Report)-[p:PUBLISHED_VIA]->(s:Source)
WITH s,
     count(DISTINCT r) AS report_count,
     avg(p.source_reliability_score) AS avg_reliability,
     avg(r.confidence_score) AS avg_confidence,
     s.independence_weight AS independence
WITH s,
     report_count,
     avg_reliability,
     avg_confidence,
     independence,
     (avg_reliability * independence * avg_confidence * report_count) AS credibility_score
ORDER BY credibility_score DESC
WITH collect(\x7b
  source: s.source_name,
  type: s.source_type,
  score: credibility_score,
  reports: report_count,
  reliability: avg_reliability,
  independence: independence
\x7d) AS rows
UNWIND range(0, size(rows)-1) AS idx
RETURN rows[idx].source AS source,
       rows[idx].type AS source_type,
       round(rows[idx].score * 100) / 100 AS credibility_score,
       rows[idx].reports AS report_count,
       round(rows[idx].reliability * 100) / 100 AS avg_reliability,
       round(rows[idx].independence * 100) / 100 AS independence_weight,
       idx + 1 AS rank
"

/-- The fixed weighted query `INTENT_QUERIES[INTENTS.EXPERIMENTAL_SOLUTIONS]` (a brace of
the source text is written here as its escape). -/
def cypher_EXPERIMENTAL_SOLUTIONS : String :=
  "
MATCH (r:Report)-[sg:SUGGESTS]->(s:Solution)
WHERE sg.is_experimental = true
WITH s,
     count(DISTINCT r) AS suggestion_count,
     avg(sg.suggestion_confidence) AS avg_confidence,
     s.solution_effectiveness_score AS effectiveness
WITH s,
     suggestion_count,
     avg_confidence,
     effectiveness,
     suggestion_count * avg_confidence * effectiveness AS potential_score
ORDER BY potential_score DESC
WITH collect(\x7b
  solution: s.solution_title,
  type: s.solution_type,
  category: s.category,
  score: potential_score,
  suggestions: suggestion_count,
  confidence: avg_confidence
\x7d) AS rows
UNWIND range(0, size(rows)-1) AS idx
RETURN rows[idx].solution AS solution,
       rows[idx].type AS solution_type,
       rows[idx].category AS category,
       round(rows[idx].score * 100) / 100 AS potential_score,
       rows[idx].suggestions AS suggestion_count,
       round(rows[idx].confidence * 100) / 100 AS avg_confidence,
       idx + 1 AS rank
LIMIT 10
"

/-- The fixed weighted query `INTENT_QUERIES[INTENTS.ISSUE_ROOT_CAUSE]` (a brace of
the source text is written here as its escape). -/
def cypher_ISSUE_ROOT_CAUSE : String :=
  "
MATCH (r:Report)-[:MENTIONS]->(i:Issue)
MATCH (r)-[:ABOUT_PRODUCT]->(p:Product)
MATCH (r)-[:PUBLISHED_VIA]->(s:Source)
WHERE toLower(i.issue_title) CONTAINS toLower($issue) OR toLower(i.category) CONTAINS toLower($issue)
WITH i, p, s,
     count(r) AS frequency,
     avg(r.confidence_score) AS avg_confidence
ORDER BY frequency DESC
WITH collect(\x7b
  issue: i.issue_title,
  product: p.name,
  source: s.source_name,
  source_type: s.source_type,
  frequency: frequency,
  confidence: avg_confidence
\x7d) AS rows
UNWIND range(0, size(rows)-1) AS idx
RETURN rows[idx].issue AS issue,
       rows[idx].product AS affected_product,
       rows[idx].source AS reported_via,
       rows[idx].source_type AS source_type,
       rows[idx].frequency AS frequency,
       round(rows[idx].confidence * 100) / 100 AS avg_confidence,
       idx + 1 AS rank
LIMIT 10
"

/-- `INTENT_QUERIES` (lines 364-765): the partial map from intents to their
fixed decision queries.  Six intents of the enumerated set have no entry, so
`INTENT_QUERIES[intent]` is `undefined` (`none`) for them. -/
def INTENT_QUERIES : Intent → Option String
  | ISSUE_SEVERITY => some cypher_ISSUE_SEVERITY
  | ISSUE_TRENDS => some cypher_ISSUE_TRENDS
  | PRODUCT_ISSUES => some cypher_PRODUCT_ISSUES
  | SOLUTION_EFFECTIVENESS => some cypher_SOLUTION_EFFECTIVENESS
  | SOLUTION_FOR_ISSUE => some cypher_SOLUTION_FOR_ISSUE
  | PRODUCT_HEALTH => some cypher_PRODUCT_HEALTH
  | EXPERT_CONSENSUS => some cypher_EXPERT_CONSENSUS
  | SOURCE_RELIABILITY => some cypher_SOURCE_RELIABILITY
  | EXPERIMENTAL_SOLUTIONS => some cypher_EXPERIMENTAL_SOLUTIONS
  | ISSUE_ROOT_CAUSE => some cypher_ISSUE_ROOT_CAUSE
  | _ => none

/-- A flat parameter map, as `extractParams` builds one. -/
abbrev Params : Type := List (String × String)

/-- The value this variant's `answerUserQuery` resolves with: the success
object `{answer, cypher, intent, method, confidence, data}` (also used for
the empty-data early return), the `{error, intent}` object for an intent
with no catalog entry, or the catch block's `{error, details}`. -/
inductive V2Result (α : Type) where
  | success (answer cypher : String) (intent : Intent) (method : String)
      (confidence : ℚ) (data : List α)
  | unsupported (error : String) (intent : Intent)
  | caught (error details : String)
deriving DecidableEq

/-- `answerUserQuery` (lines 849-921).  `extractO` stands for the
`extractParams` regex step (its result is only passed to the store),
`execO cypher params` for `runCypherReadOnly`, `narrO` for the narration
completion call.  Empty data returns the fixed no-data answer with
confidence 0; a narrated result carries confidence 1.0; a thrown error is
caught and wrapped. -/
def answerUserQuery (α : Type) (extractO : String → Intent → Params)
    (execO : String → Params → Except String (List α))
    (narrO : List α → Except String String) (question : String) :
    V2Result α :=
  let intent := classifyIntent question
  match INTENT_QUERIES intent with
  | none =>
    .unsupported
      "Query intent not supported. The graph cannot make a decision for this query."
      intent
  | some cypher =>
    let params := extractO question intent
    match execO cypher params with
    | .error e => .caught "Failed to execute graph query. Please try again." e
    | .ok data =>
      if data.isEmpty then
        .success "The knowledge graph found no data matching your query criteria."
          cypher intent "graph_intelligence" 0 []
      else
        match narrO data with
        | .error e => .caught "Failed to execute graph query. Please try again." e
        | .ok answer =>
          .success answer cypher intent "graph_intelligence" 1 data

end queryUnderstandingV2

/-! ## Theorems

List-scanning lemmas used by the `optimizeCypher` analysis. -/

theorem takeWhile_append_stop (p : Char → Bool) (A : List Char) (h : Char)
    (B : List Char) (hh : p h = false) :
    (A ++ h :: B).takeWhile p = A.takeWhile p := by
  induction A with
  | nil => simp [List.takeWhile_cons, hh]
  | cons a A' ih =>
    by_cases hp : p a
    · simp [List.takeWhile_cons, hp, ih]
    · simp [List.takeWhile_cons, hp]

theorem dropWhile_append_stop (p : Char → Bool) (A : List Char) (h : Char)
    (B : List Char) (hh : p h = false) :
    (A ++ h :: B).dropWhile p = A.dropWhile p ++ h :: B := by
  induction A with
  | nil => simp [List.dropWhile_cons, hh]
  | cons a A' ih =>
    by_cases hp : p a
    · simp [List.dropWhile_cons, hp, ih]
    · simp [List.dropWhile_cons, hp]

theorem dropWhile_head_not (p : Char → Bool) (l : List Char) (x : Char)
    (xs : List Char) (h : l.dropWhile p = x :: xs) : p x = false := by
  induction l with
  | nil => simp at h
  | cons c r ih =>
    by_cases hp : p c
    · simp [List.dropWhile_cons, hp] at h
      exact ih h
    · simp [List.dropWhile_cons, hp] at h
      cases h with
      | intro h1 h2 =>
        subst h1
        simpa using hp

theorem takeWhile_dropWhile_nil (p : Char → Bool) (l : List Char) :
    (l.dropWhile p).takeWhile p = [] := by
  cases hd : l.dropWhile p with
  | nil => simp
  | cons x xs =>
    have hx := dropWhile_head_not p l x xs hd
    simp [List.takeWhile_cons, hx]

theorem isPrefixCI_append_extend (pat : List Char) :
    ∀ (A B : List Char), isPrefixCI pat A = true →
      isPrefixCI pat (A ++ B) = true := by
  induction pat with
  | nil => intro A B _; simp [isPrefixCI]
  | cons p ps ih =>
    intro A B hA
    cases A with
    | nil => simp [isPrefixCI] at hA
    | cons a A' =>
      simp only [isPrefixCI, Bool.and_eq_true] at hA
      simp only [List.cons_append, isPrefixCI, Bool.and_eq_true]
      exact ⟨hA.1, ih A' B hA.2⟩

theorem isPrefixCI_append_stop (pat : List Char) (a : Char)
    (hpat : ∀ pc ∈ pat, pc ≠ lcChar a) :
    ∀ (u w : List Char), isPrefixCI pat (u ++ a :: w) = isPrefixCI pat u := by
  induction pat with
  | nil => intro u w; simp [isPrefixCI]
  | cons p ps ih =>
    intro u w
    cases u with
    | nil =>
      simp only [List.nil_append, isPrefixCI]
      have : (lcChar a == p) = false := by
        have := hpat p (by simp)
        simp [beq_eq_false_iff_ne]
        exact fun he => this he.symm
      simp [this]
    | cons c u' =>
      have := ih (fun pc hpc => hpat pc (by simp [hpc])) u' w
      simp only [List.cons_append, isPrefixCI, List.append_eq, this]

theorem hasLimitCI_extend (A B : List Char)
    (h : queryEngine.hasLimitCI A = true) :
    queryEngine.hasLimitCI (A ++ B) = true := by
  induction A with
  | nil => simp [queryEngine.hasLimitCI] at h
  | cons c r ih =>
    simp only [queryEngine.hasLimitCI, Bool.or_eq_true] at h
    simp only [List.cons_append, queryEngine.hasLimitCI, Bool.or_eq_true]
    cases h with
    | inl h =>
      left
      have := isPrefixCI_append_extend queryEngine.limitWord (c :: r) B h
      simpa using this
    | inr h => right; exact ih h

theorem hasLimitCI_mono (A B : List Char)
    (h : queryEngine.hasLimitCI (A ++ B) = false) :
    queryEngine.hasLimitCI A = false := by
  cases hA : queryEngine.hasLimitCI A with
  | false => rfl
  | true => rw [hasLimitCI_extend A B hA] at h; exact h.symm ▸ rfl

theorem hasLimitCI_dropLast (s : List Char)
    (h : queryEngine.hasLimitCI s = false) :
    queryEngine.hasLimitCI s.dropLast = false := by
  by_cases hne : s = []
  · subst hne; simp [queryEngine.hasLimitCI]
  · have hsplit := List.dropLast_append_getLast hne
    apply hasLimitCI_mono s.dropLast [s.getLast hne]
    rw [hsplit]
    exact h

theorem not_space_of_lc_l (x : Char) (h : lcChar x = 'l') :
    isSpaceJS x = false := by
  cases hx : isSpaceJS x with
  | false => rfl
  | true =>
    exfalso
    simp only [isSpaceJS, Bool.or_eq_true, beq_iff_eq] at hx
    rcases hx with ((((rfl | rfl) | rfl) | rfl) | rfl) | rfl <;>
      exact absurd h (by decide)

theorem not_digit_of_lc_l (x : Char) (h : lcChar x = 'l') :
    isDigitJS x = false := by
  cases hx : isDigitJS x with
  | false => rfl
  | true =>
    exfalso
    simp only [isDigitJS, Bool.or_eq_true, beq_iff_eq] at hx
    rcases hx with ((((((((rfl | rfl) | rfl) | rfl) | rfl) | rfl) | rfl) | rfl) | rfl) | rfl <;>
      exact absurd h (by decide)

namespace queryEngine

theorem matchLimitAt_none_of_pfx (s : List Char)
    (h : isPrefixCI limitWord s = false) : matchLimitAt s = none := by
  simp [matchLimitAt, h]

theorem limitWord_no_space : ∀ pc ∈ limitWord, pc ≠ lcChar ' ' := by decide

theorem firstLimitVal_prepend (w : List Char) :
    ∀ (s : List Char), hasLimitCI s = false →
      firstLimitVal (s ++ ' ' :: w) = firstLimitVal (' ' :: w) := by
  intro s
  induction s with
  | nil => intro _; simp
  | cons c r ih =>
    intro h
    simp only [hasLimitCI, Bool.or_eq_false_iff] at h
    have hpfx : isPrefixCI limitWord ((c :: r) ++ ' ' :: w)
        = isPrefixCI limitWord (c :: r) :=
      isPrefixCI_append_stop limitWord ' ' limitWord_no_space (c :: r) w
    have hnone : matchLimitAt ((c :: r) ++ ' ' :: w) = none := by
      apply matchLimitAt_none_of_pfx
      rw [hpfx]
      exact h.1
    show firstLimitVal (c :: (r ++ ' ' :: w)) = firstLimitVal (' ' :: w)
    rw [firstLimitVal]
    simp only [← List.cons_append, hnone]
    exact ih h.2

/-- A successful `/LIMIT\s+(\d+)/i` match leaves a remainder that starts with
a non-digit (the digit run is maximal). -/
theorem matchLimitAt_rem_no_digit (s : List Char) (v : Nat) (rem : List Char)
    (h : matchLimitAt s = some (v, rem)) :
    rem.takeWhile isDigitJS = [] := by
  by_cases hp : isPrefixCI limitWord s
  · by_cases hw : (List.takeWhile isSpaceJS (s.drop 5)).isEmpty
    · simp [matchLimitAt, hp, hw] at h
    · by_cases hd :
          (List.takeWhile isDigitJS (List.dropWhile isSpaceJS (s.drop 5))).isEmpty
      · simp [matchLimitAt, hp, hw, hd] at h
      · simp [matchLimitAt, hp, hw, hd] at h
        rw [← h.2]
        exact takeWhile_dropWhile_nil _ _
  · simp [matchLimitAt, hp] at h

/-- A successful match starts with a letter whose lower case is `l`. -/
theorem matchLimitAt_head_l (c : Char) (r : List Char) (pr : Nat × List Char)
    (h : matchLimitAt (c :: r) = some pr) : lcChar c = 'l' := by
  by_cases hp : isPrefixCI limitWord (c :: r)
  · simp only [limitWord, isPrefixCI, Bool.and_eq_true, beq_iff_eq] at hp
    exact hp.1
  · simp [matchLimitAt, hp] at h

theorem dropWhile_eq_self_of_takeWhile_nil (p : Char → Bool) (l : List Char)
    (h : l.takeWhile p = []) : l.dropWhile p = l := by
  cases l with
  | nil => simp
  | cons c r =>
    by_cases hp : p c
    · simp [List.takeWhile_cons, hp] at h
    · simp [List.dropWhile_cons, hp]

theorem firstLimitVal_limit100_append (T : List Char)
    (hT : T.takeWhile isDigitJS = []) :
    firstLimitVal (limit100 ++ T) = some 100 := by
  have h1 : limit100 ++ T
      = 'L' :: 'I' :: 'M' :: 'I' :: 'T' :: ' ' :: '1' :: '0' :: '0' :: T := rfl
  have hpfx : isPrefixCI limitWord
      ('L' :: 'I' :: 'M' :: 'I' :: 'T' :: ' ' :: '1' :: '0' :: '0' :: T) = true := by
    simp only [isPrefixCI, limitWord]
    decide
  have hTdrop : List.dropWhile isDigitJS T = T :=
    dropWhile_eq_self_of_takeWhile_nil _ _ hT
  have bsp : isSpaceJS ' ' = true := by decide
  have bs1 : isSpaceJS '1' = false := by decide
  have bd1 : isDigitJS '1' = true := by decide
  have bd0 : isDigitJS '0' = true := by decide
  have hws : List.takeWhile isSpaceJS (' ' :: '1' :: '0' :: '0' :: T)
      = [' '] := by
    simp [List.takeWhile_cons, bsp, bs1]
  have hdw : List.dropWhile isSpaceJS (' ' :: '1' :: '0' :: '0' :: T)
      = '1' :: '0' :: '0' :: T := by
    simp [List.dropWhile_cons, bsp, bs1]
  have hds : List.takeWhile isDigitJS ('1' :: '0' :: '0' :: T)
      = ['1', '0', '0'] := by
    simp [List.takeWhile_cons, bd1, bd0, hT]
  have hdd : List.dropWhile isDigitJS ('1' :: '0' :: '0' :: T) = T := by
    simp [List.dropWhile_cons, bd1, bd0, hTdrop]
  rw [h1, firstLimitVal]
  have hm : matchLimitAt
      ('L' :: 'I' :: 'M' :: 'I' :: 'T' :: ' ' :: '1' :: '0' :: '0' :: T)
      = some (100, T) := by
    rw [matchLimitAt]
    rw [if_pos hpfx]
    have hdrop : List.drop 5
        ('L' :: 'I' :: 'M' :: 'I' :: 'T' :: ' ' :: '1' :: '0' :: '0' :: T)
        = ' ' :: '1' :: '0' :: '0' :: T := rfl
    simp only [hdrop, hws, hdw, hds, hdd]
    norm_num [natOfDigits]
    decide
  rw [hm]

/-- Replacing text after a non-empty prefix `P` by other text cannot create a
`/LIMIT\s+(\d+)/i` match at the start when both texts begin with a letter
that lower-cases to `l`: the scan fails (or would already have succeeded) at
the same place. -/
theorem matchLimitAt_none_congr (P : List Char) (hP : P ≠ []) (x1 x2 : Char)
    (u1 u2 : List Char) (h1 : lcChar x1 = 'l') (h2 : lcChar x2 = 'l')
    (hnone : matchLimitAt (P ++ x1 :: u1) = none) :
    matchLimitAt (P ++ x2 :: u2) = none := by
  match P, hP with
  | [], h => exact absurd rfl h
  | [a], _ =>
    apply matchLimitAt_none_of_pfx
    simp [isPrefixCI, limitWord, h2]
  | [a, b], _ =>
    apply matchLimitAt_none_of_pfx
    simp [isPrefixCI, limitWord, h2]
  | [a, b, c], _ =>
    apply matchLimitAt_none_of_pfx
    simp [isPrefixCI, limitWord, h2]
  | [a, b, c, d], _ =>
    apply matchLimitAt_none_of_pfx
    simp [isPrefixCI, limitWord, h2]
  | a :: b :: c :: d :: e :: P5, _ =>
    have hcond1 : isPrefixCI limitWord ((a :: b :: c :: d :: e :: P5) ++ x1 :: u1)
        = ((lcChar a == 'l') && ((lcChar b == 'i') && ((lcChar c == 'm') &&
            ((lcChar d == 'i') && (lcChar e == 't'))))) := by
      simp [isPrefixCI, limitWord]
    have hcond2 : isPrefixCI limitWord ((a :: b :: c :: d :: e :: P5) ++ x2 :: u2)
        = ((lcChar a == 'l') && ((lcChar b == 'i') && ((lcChar c == 'm') &&
            ((lcChar d == 'i') && (lcChar e == 't'))))) := by
      simp [isPrefixCI, limitWord]
    by_cases hcnd : ((lcChar a == 'l') && ((lcChar b == 'i') && ((lcChar c == 'm') &&
        ((lcChar d == 'i') && (lcChar e == 't'))))) = true
    · have hdrop1 : ((a :: b :: c :: d :: e :: P5) ++ x1 :: u1).drop 5
          = P5 ++ x1 :: u1 := by simp
      have hdrop2 : ((a :: b :: c :: d :: e :: P5) ++ x2 :: u2).drop 5
          = P5 ++ x2 :: u2 := by simp
      have hws1 : List.takeWhile isSpaceJS (P5 ++ x1 :: u1)
          = List.takeWhile isSpaceJS P5 :=
        takeWhile_append_stop _ P5 x1 u1 (not_space_of_lc_l x1 h1)
      have hws2 : List.takeWhile isSpaceJS (P5 ++ x2 :: u2)
          = List.takeWhile isSpaceJS P5 :=
        takeWhile_append_stop _ P5 x2 u2 (not_space_of_lc_l x2 h2)
      have hdw1 : List.dropWhile isSpaceJS (P5 ++ x1 :: u1)
          = List.dropWhile isSpaceJS P5 ++ x1 :: u1 :=
        dropWhile_append_stop _ P5 x1 u1 (not_space_of_lc_l x1 h1)
      have hdw2 : List.dropWhile isSpaceJS (P5 ++ x2 :: u2)
          = List.dropWhile isSpaceJS P5 ++ x2 :: u2 :=
        dropWhile_append_stop _ P5 x2 u2 (not_space_of_lc_l x2 h2)
      have hds1 : List.takeWhile isDigitJS (List.dropWhile isSpaceJS P5 ++ x1 :: u1)
          = List.takeWhile isDigitJS (List.dropWhile isSpaceJS P5) :=
        takeWhile_append_stop _ _ x1 u1 (not_digit_of_lc_l x1 h1)
      have hds2 : List.takeWhile isDigitJS (List.dropWhile isSpaceJS P5 ++ x2 :: u2)
          = List.takeWhile isDigitJS (List.dropWhile isSpaceJS P5) :=
        takeWhile_append_stop _ _ x2 u2 (not_digit_of_lc_l x2 h2)
      by_cases hwsE : (List.takeWhile isSpaceJS P5).isEmpty = true
      · rw [matchLimitAt, hcond2, hcnd]
        simp only [if_true, hdrop2, hws2, hwsE]
      · by_cases hdsE :
            (List.takeWhile isDigitJS (List.dropWhile isSpaceJS P5)).isEmpty = true
        · rw [matchLimitAt, hcond2, hcnd]
          simp only [if_true, hdrop2, hws2, hdw2, hds2, hwsE, hdsE]
          simp [hwsE, hdsE]
        · exfalso
          rw [matchLimitAt, hcond1, hcnd] at hnone
          simp only [if_true, hdrop1, hws1, hdw1, hds1] at hnone
          simp [hwsE, hdsE] at hnone
    · apply matchLimitAt_none_of_pfx
      rw [hcond2]
      simpa using hcnd

end queryEngine

namespace queryEngine

/-- A string with a first numeric LIMIT decomposes as a match-free prefix
followed by the match; replacing the match keeps the prefix and puts a
letter lower-casing to `l` at the same position. -/
theorem replaceFirstLimit_decompose (r : List Char) (w : Nat)
    (h : firstLimitVal r = some w) :
    ∃ (pre : List Char) (x1 : Char) (u1 : List Char) (x2 : Char) (u2 : List Char),
      r = pre ++ x1 :: u1 ∧ replaceFirstLimit r = pre ++ x2 :: u2 ∧
      lcChar x1 = 'l' ∧ lcChar x2 = 'l' := by
  induction r with
  | nil => simp [firstLimitVal] at h
  | cons c rr ih =>
    cases hm : matchLimitAt (c :: rr) with
    | some pr =>
      refine ⟨[], c, rr, 'L', limit100.tail ++ pr.2, ?_, ?_, ?_, ?_⟩
      · simp
      · simp only [replaceFirstLimit, hm]
        rfl
      · exact matchLimitAt_head_l c rr pr hm
      · decide
    | none =>
      rw [firstLimitVal, hm] at h
      obtain ⟨pre, x1, u1, x2, u2, hr, hrep, hl1, hl2⟩ := ih h
      refine ⟨c :: pre, x1, u1, x2, u2, ?_, ?_, hl1, hl2⟩
      · simp [hr]
      · simp only [replaceFirstLimit, hm, hrep]
        rfl

/-- Replacing the first numeric LIMIT makes the first numeric LIMIT of the
result exactly 100. -/
theorem replaceFirstLimit_first100 (r : List Char) (w : Nat)
    (h : firstLimitVal r = some w) :
    firstLimitVal (replaceFirstLimit r) = some 100 := by
  induction r with
  | nil => simp [firstLimitVal] at h
  | cons c rr ih =>
    cases hm : matchLimitAt (c :: rr) with
    | some pr =>
      have hrw : replaceFirstLimit (c :: rr) = limit100 ++ pr.2 := by
        simp only [replaceFirstLimit, hm]
      rw [hrw]
      exact firstLimitVal_limit100_append pr.2
        (matchLimitAt_rem_no_digit (c :: rr) pr.1 pr.2 (by rw [hm]))
    | none =>
      rw [firstLimitVal, hm] at h
      obtain ⟨pre, x1, u1, x2, u2, hr, hrep, hl1, hl2⟩ :=
        replaceFirstLimit_decompose rr w h
      have hrw : replaceFirstLimit (c :: rr) = c :: replaceFirstLimit rr := by
        simp only [replaceFirstLimit, hm]
      rw [hrw]
      have hnone2 : matchLimitAt (c :: replaceFirstLimit rr) = none := by
        have hbase : matchLimitAt ((c :: pre) ++ x1 :: u1) = none := by
          have : (c :: pre) ++ x1 :: u1 = c :: rr := by simp [hr]
          rw [this]; exact hm
        have := matchLimitAt_none_congr (c :: pre) (by simp) x1 x2 u1 u2
          hl1 hl2 hbase
        have heq : (c :: pre) ++ x2 :: u2 = c :: replaceFirstLimit rr := by
          simp [hrep]
        rw [heq] at this
        exact this
      rw [firstLimitVal, hnone2]
      exact ih h

end queryEngine

namespace queryEngine

theorem space_limit100_data : " LIMIT 100".data = ' ' :: "LIMIT 100".data := by
  decide

theorem space_limit100_semi_data :
    " LIMIT 100;".data = ' ' :: "LIMIT 100;".data := by
  decide

theorem firstLimitVal_tail_app : firstLimitVal (' ' :: "LIMIT 100".data) = some 100 := by
  decide

theorem firstLimitVal_tail_app_semi :
    firstLimitVal (' ' :: "LIMIT 100;".data) = some 100 := by
  decide

/-- After the `addLimit` block on a query with no `limit` substring, the
first numeric LIMIT of the result is the appended 100. -/
theorem addLimit_first100 (c : List Char) (h : hasLimitCI c = false) :
    firstLimitVal (addLimit c) = some 100 := by
  rw [addLimit, if_neg (by simp [h])]
  by_cases hsemi : c.getLast? = some ';'
  · rw [if_pos hsemi, space_limit100_semi_data]
    rw [firstLimitVal_prepend _ c.dropLast (hasLimitCI_dropLast c h)]
    exact firstLimitVal_tail_app_semi
  · rw [if_neg hsemi, space_limit100_data]
    rw [firstLimitVal_prepend _ c h]
    exact firstLimitVal_tail_app

end queryEngine

/-- C1 (amended): `optimizeCypher` inspects only the first numeric LIMIT
occurrence.  For every input query: (a) whenever the optimized query has a
first `/LIMIT\s+(\d+)/i` occurrence, its value is at most 100 — a missing
LIMIT gets `LIMIT 100` appended and a first numeric LIMIT above 100 is
rewritten down to 100 rather than the query being rejected; (b) in
particular, when the trimmed and fence-stripped query contains no `limit`
substring at all (case-insensitively), the optimized query's first numeric
LIMIT is exactly the appended 100.  (LIMIT occurrences after the first are
not inspected, so the effective row cap of a multi-LIMIT query can still
exceed 100; see the counterexample.) -/
theorem optimizeCypher_caps_first_limit (q : List Char) :
    (∀ v, queryEngine.firstLimitVal (queryEngine.optimizeCypherL q) = some v →
      v ≤ 100) ∧
    (queryEngine.hasLimitCI (queryEngine.cleanCypher q) = false →
      queryEngine.firstLimitVal (queryEngine.optimizeCypherL q) = some 100) := by
  constructor
  · intro v h
    rw [queryEngine.optimizeCypherL] at h
    cases hfv : queryEngine.firstLimitVal
        (queryEngine.addLimit (queryEngine.cleanCypher q)) with
    | none =>
      simp only [queryEngine.capLimit, hfv] at h
      exact absurd h (by simp)
    | some w =>
      by_cases hw : w > 100
      · simp only [queryEngine.capLimit, hfv, if_pos hw] at h
        rw [queryEngine.replaceFirstLimit_first100 _ w hfv] at h
        injection h with h
        omega
      · simp only [queryEngine.capLimit, hfv, if_neg hw] at h
        injection h with h
        omega
  · intro h
    have h100 := queryEngine.addLimit_first100 (queryEngine.cleanCypher q) h
    rw [queryEngine.optimizeCypherL, queryEngine.capLimit, h100]
    simp [h100]

/-- C1 counterexample: `"MATCH (n) WITH n LIMIT 50 RETURN n LIMIT 500"`
contains a LIMIT with value 500 > 100, yet `optimizeCypher` returns it
unchanged — the oversized value is not rewritten down, because only the
first numeric LIMIT (here 50) is inspected. -/
theorem optimizeCypher_keeps_second_oversized_limit :
    queryEngine.optimizeCypher "MATCH (n) WITH n LIMIT 50 RETURN n LIMIT 500"
      = "MATCH (n) WITH n LIMIT 50 RETURN n LIMIT 500" ∧
    hasSubS "MATCH (n) WITH n LIMIT 50 RETURN n LIMIT 500" "LIMIT 500" = true := by
  constructor
  · decide
  · decide

namespace queryEngine

/-- The catch block always yields one of the four fixed user-facing messages,
with the thrown message kept as `details`. -/
theorem classifyCatch_cases (α : Type) (e : String) :
    ∃ m, classifyCatch α e = QEResult.err m e ∧
      (m = msgInvalidQuery ∨ m = msgExecFailed ∨ m = msgUnderstand ∨
        m = msgUnexpected) := by
  unfold classifyCatch
  split
  · exact ⟨msgInvalidQuery, rfl, Or.inl rfl⟩
  · split
    · exact ⟨msgExecFailed, rfl, Or.inr (Or.inl rfl)⟩
    · split
      · exact ⟨msgUnderstand, rfl, Or.inr (Or.inr (Or.inl rfl))⟩
      · exact ⟨msgUnexpected, rfl, Or.inr (Or.inr (Or.inr rfl))⟩

end queryEngine

/-- C2 (amended): `answerUserQuery` never performs a repair round.  When
generation succeeds and the produced query's execution fails on all three
attempts — whatever the error text says, malformed or transient — the
identical optimized query is passed to the store on every attempt, the
text-generation backend is never invoked again after the first execution
attempt (the failing query and the store's error message are never sent
back to it), and the caller receives the structured error whose details
embed the final store message. -/
theorem answerUserQuery_never_repairs (α : Type)
    (genO : Nat → Except String String)
    (execO : String → Nat → Except String (List α))
    (jsonStr : List α → String) (verbO : String → Except String String)
    (q g e1 e2 e3 : String)
    (hg : genO 1 = .ok g)
    (h1 : execO (queryEngine.optimizeCypher g) 1 = .error e1)
    (h2 : execO (queryEngine.optimizeCypher g) 2 = .error e2)
    (h3 : execO (queryEngine.optimizeCypher g) 3 = .error e3) :
    queryEngine.answerUserQuery α genO execO jsonStr verbO q
      = (queryEngine.classifyCatch α
          ("Query execution failed after 3 attempts: " ++ e3),
         [.llmGen 1 q,
          .exec 1 (queryEngine.optimizeCypher g), .sleep 1000,
          .exec 2 (queryEngine.optimizeCypher g), .sleep 2000,
          .exec 3 (queryEngine.optimizeCypher g)]) := by
  simp [queryEngine.answerUserQuery, queryEngine.genLoop, queryEngine.execLoop,
    hg, h1, h2, h3]

/-- C2 witness: concrete oracles exercising the theorem. -/
theorem answerUserQuery_never_repairs_witness :
    queryEngine.answerUserQuery Unit (fun _ => .ok "MATCH (n) RETURN n")
      (fun _ _ => .error "SyntaxError: bad") (fun _ => "") (fun _ => .ok "") "q"
      = (queryEngine.classifyCatch Unit
          ("Query execution failed after 3 attempts: " ++ "SyntaxError: bad"),
         [.llmGen 1 "q",
          .exec 1 (queryEngine.optimizeCypher "MATCH (n) RETURN n"), .sleep 1000,
          .exec 2 (queryEngine.optimizeCypher "MATCH (n) RETURN n"), .sleep 2000,
          .exec 3 (queryEngine.optimizeCypher "MATCH (n) RETURN n")]) :=
  answerUserQuery_never_repairs Unit _ _ _ _ "q" "MATCH (n) RETURN n"
    "SyntaxError: bad" "SyntaxError: bad" "SyntaxError: bad" rfl rfl rfl rfl

/-- C2 counterexample: a first execution failure whose error text indicates a
malformed query (`SyntaxError`) triggers no repair round at all — zero
language-model calls occur at or after the first execution attempt (the
claim requires one), the same query is simply executed three times, and the
surfaced structured error is the execution-failure object. -/
theorem malformed_failure_no_repair_round :
    queryEngine.countLlmAfterFirstExec
        (queryEngine.answerUserQuery Unit (fun _ => .ok "MATCH (n) RETURN n")
          (fun _ _ => .error "SyntaxError: Invalid input") (fun _ => "")
          (fun _ => .ok "") "q").2 = 0 ∧
    queryEngine.execCount
        (queryEngine.answerUserQuery Unit (fun _ => .ok "MATCH (n) RETURN n")
          (fun _ _ => .error "SyntaxError: Invalid input") (fun _ => "")
          (fun _ => .ok "") "q").2 = 3 ∧
    (queryEngine.answerUserQuery Unit (fun _ => .ok "MATCH (n) RETURN n")
        (fun _ _ => .error "SyntaxError: Invalid input") (fun _ => "")
        (fun _ => .ok "") "q").1
      = queryEngine.QEResult.err queryEngine.msgInvalidQuery
          "Query execution failed after 3 attempts: SyntaxError: Invalid input" := by
  refine ⟨?_, ?_, ?_⟩ <;> decide

/-- C3: query execution is attempted at most 3 times, and a store call that
fails on attempts 1 and 2 but succeeds on attempt 3 returns the attempt-3
rows to the caller with no error; the delays between attempts are the
linearly increasing `1000 * attempt` milliseconds, and the execution error is
surfaced only after the third attempt fails (the all-fail trace of
`answerUserQuery` has exactly three execution attempts). -/
theorem execution_retry_three_attempts :
    (∀ (α : Type) (genO : Nat → Except String String)
        (execO : String → Nat → Except String (List α))
        (jsonStr : List α → String) (verbO : String → Except String String)
        (q : String),
      queryEngine.execCount
        (queryEngine.answerUserQuery α genO execO jsonStr verbO q).2 ≤ 3) ∧
    (∀ (α : Type) (genO : Nat → Except String String)
        (execO : String → Nat → Except String (List α))
        (jsonStr : List α → String) (verbO : String → Except String String)
        (q g e1 e2 : String) (d : List α) (a : String),
      genO 1 = .ok g →
      execO (queryEngine.optimizeCypher g) 1 = .error e1 →
      execO (queryEngine.optimizeCypher g) 2 = .error e2 →
      execO (queryEngine.optimizeCypher g) 3 = .ok d →
      verbO (queryEngine.userPrompt α jsonStr q d) = .ok a →
      queryEngine.answerUserQuery α genO execO jsonStr verbO q
        = (queryEngine.QEResult.ok (queryEngine.optimizeCypher g) d a,
           [.llmGen 1 q,
            .exec 1 (queryEngine.optimizeCypher g), .sleep 1000,
            .exec 2 (queryEngine.optimizeCypher g), .sleep 2000,
            .exec 3 (queryEngine.optimizeCypher g),
            .llmVerbalize q])) := by
  constructor
  · intro α genO execO jsonStr verbO q
    have count3 : ∀ (c : String),
        queryEngine.execCount
          (queryEngine.execLoop α execO c).2 ≤ 3 := by
      intro c
      rcases he1 : execO c 1 with e1 | d1
      · rcases he2 : execO c 2 with e2 | d2
        · rcases he3 : execO c 3 with e3 | d3 <;>
            simp [queryEngine.execLoop, he1, he2, he3,
              queryEngine.execCount, queryEngine.Ev.isExec]
        · simp [queryEngine.execLoop, he1, he2,
            queryEngine.execCount, queryEngine.Ev.isExec]
      · simp [queryEngine.execLoop, he1,
          queryEngine.execCount, queryEngine.Ev.isExec]
    have filt2 : ∀ (evs evs2 : List queryEngine.Ev),
        (∀ e ∈ evs, queryEngine.Ev.isExec e = false) →
        queryEngine.execCount (evs ++ evs2) = queryEngine.execCount evs2 := by
      intro evs evs2 h1
      unfold queryEngine.execCount
      rw [List.filter_append]
      have hA : List.filter queryEngine.Ev.isExec evs = [] :=
        List.filter_eq_nil_iff.mpr (by intro e he; simp [h1 e he])
      rw [hA]
      simp
    have filt3 : ∀ (evs evs2 evs3 : List queryEngine.Ev),
        (∀ e ∈ evs, queryEngine.Ev.isExec e = false) →
        (∀ e ∈ evs3, queryEngine.Ev.isExec e = false) →
        queryEngine.execCount (evs ++ evs2 ++ evs3)
          = queryEngine.execCount evs2 := by
      intro evs evs2 evs3 h1 h3
      unfold queryEngine.execCount
      rw [List.filter_append, List.filter_append]
      have hA : List.filter queryEngine.Ev.isExec evs = [] :=
        List.filter_eq_nil_iff.mpr (by intro e he; simp [h1 e he])
      have hC : List.filter queryEngine.Ev.isExec evs3 = [] :=
        List.filter_eq_nil_iff.mpr (by intro e he; simp [h3 e he])
      rw [hA, hC]
      simp
    rcases hg1 : genO 1 with eg1 | g
    · rcases hg2 : genO 2 with eg2 | g
      · simp [queryEngine.answerUserQuery, queryEngine.genLoop, hg1, hg2,
          queryEngine.execCount, queryEngine.Ev.isExec]
      · rcases hel : queryEngine.execLoop α execO (queryEngine.optimizeCypher g)
            with ⟨r, evs2⟩
        have hcnt := count3 (queryEngine.optimizeCypher g)
        rw [hel] at hcnt
        rcases r with e | d
        · simp only [queryEngine.answerUserQuery, queryEngine.genLoop, hg1, hg2,
            hel]
          have := filt2 [.llmGen 1 q, .sleep 500, .llmGen 2 q] evs2 (by
            intro e he
            simp at he
            rcases he with rfl | rfl | rfl <;> rfl)
          simpa [this] using hcnt
        · rcases hv : verbO (queryEngine.userPrompt α jsonStr q d) with ev | av
          all_goals
            simp only [queryEngine.answerUserQuery, queryEngine.genLoop, hg1, hg2,
              hel, queryEngine.verbalizeAnswer, hv]
          all_goals
            have := filt3 [.llmGen 1 q, .sleep 500, .llmGen 2 q] evs2
              [.llmVerbalize q] (by
                intro e he
                simp at he
                rcases he with rfl | rfl | rfl <;> rfl) (by
                intro e he
                simp at he
                subst he
                rfl)
            exact this.trans_le hcnt
    · rcases hel : queryEngine.execLoop α execO (queryEngine.optimizeCypher g)
          with ⟨r, evs2⟩
      have hcnt := count3 (queryEngine.optimizeCypher g)
      rw [hel] at hcnt
      rcases r with e | d
      · simp only [queryEngine.answerUserQuery, queryEngine.genLoop, hg1, hel]
        have := filt2 [.llmGen 1 q] evs2 (by
          intro e he
          simp at he
          subst he
          rfl)
        simpa [this] using hcnt
      · rcases hv : verbO (queryEngine.userPrompt α jsonStr q d) with ev | av
        all_goals
          simp only [queryEngine.answerUserQuery, queryEngine.genLoop, hg1,
            hel, queryEngine.verbalizeAnswer, hv]
        all_goals
          have := filt3 [.llmGen 1 q] evs2 [.llmVerbalize q] (by
            intro e he
            simp at he
            subst he
            rfl) (by
            intro e he
            simp at he
            subst he
            rfl)
          exact this.trans_le hcnt
  · intro α genO execO jsonStr verbO q g e1 e2 d a hg he1 he2 he3 hv
    simp [queryEngine.answerUserQuery, queryEngine.genLoop, queryEngine.execLoop,
      queryEngine.verbalizeAnswer, hg, he1, he2, he3, hv]

namespace queryUnderstandingV1

/-- The catch block of the generative `answerUserQuery` always yields one of
two fixed apologetic answers, with the thrown message in the `error` field
and confidence 0. -/
theorem catchBlock_cases (e : String) :
    ∃ ans, catchBlock e = V1Result.failure ans e 0 ∧
      (ans = "I couldn't generate a valid query for that question. Could you rephrase it or be more specific?" ∨
       ans = "An error occurred while processing your question. Please try again.") := by
  unfold catchBlock
  split
  · exact ⟨_, rfl, Or.inl rfl⟩
  · exact ⟨_, rfl, Or.inr rfl⟩

end queryUnderstandingV1

/-- C9: neither `answerUserQuery` lets a failure escape or fabricates data.
For the queryEngine pipeline, every run resolves either to a success object
whose rows are exactly what some store attempt returned and whose answer is
the verbalizer's output on those rows, or to a structured error object
carrying one of the four fixed safe messages plus the internal message as
details.  For the generative queryUnderstanding pipeline, every run resolves
either to a success object whose rows come from the store call on the
generated query, or to the catch block's structured result with one of two
fixed apologetic answers, the internal message, and confidence 0. -/
theorem answerUserQuery_always_structured :
    (∀ (α : Type) (genO : Nat → Except String String)
        (execO : String → Nat → Except String (List α))
        (jsonStr : List α → String) (verbO : String → Except String String)
        (q : String),
      (∃ c d a, (queryEngine.answerUserQuery α genO execO jsonStr verbO q).1
          = queryEngine.QEResult.ok c d a ∧
          (execO c 1 = .ok d ∨ execO c 2 = .ok d ∨ execO c 3 = .ok d) ∧
          verbO (queryEngine.userPrompt α jsonStr q d) = .ok a) ∨
      (∃ m dtl, (queryEngine.answerUserQuery α genO execO jsonStr verbO q).1
          = queryEngine.QEResult.err m dtl ∧
          (m = queryEngine.msgInvalidQuery ∨ m = queryEngine.msgExecFailed ∨
           m = queryEngine.msgUnderstand ∨ m = queryEngine.msgUnexpected))) ∧
    (∀ (schemaO : Except String Unit)
        (genO : Except String queryUnderstandingV1.GenOut)
        (execO : String → List (String × String) →
          Except String (List queryUnderstandingV1.Row))
        (narrO : List queryUnderstandingV1.Row → Except String String),
      (∃ a g d, genO = .ok g ∧ execO g.cypher g.parameters = .ok d ∧
        queryUnderstandingV1.answerUserQuery schemaO genO execO narrO
          = queryUnderstandingV1.V1Result.success a d g.cypher g.reasoning
              (if d.length > 0 then 1 else 0)) ∨
      (∃ ans err, queryUnderstandingV1.answerUserQuery schemaO genO execO narrO
          = queryUnderstandingV1.V1Result.failure ans err 0 ∧
          (ans = "I couldn't generate a valid query for that question. Could you rephrase it or be more specific?" ∨
           ans = "An error occurred while processing your question. Please try again."))) := by
  constructor
  · intro α genO execO jsonStr verbO q
    have viaCatch : ∀ (e : String) (evs : List queryEngine.Ev),
        (∃ m dtl, (queryEngine.classifyCatch α e, evs).1
            = queryEngine.QEResult.err m dtl ∧
            (m = queryEngine.msgInvalidQuery ∨ m = queryEngine.msgExecFailed ∨
             m = queryEngine.msgUnderstand ∨ m = queryEngine.msgUnexpected)) := by
      intro e evs
      obtain ⟨m, hm, hcases⟩ := queryEngine.classifyCatch_cases α e
      exact ⟨m, e, by simpa using hm, hcases⟩
    rcases hg1 : genO 1 with eg1 | g
    case error =>
      rcases hg2 : genO 2 with eg2 | g
      case error =>
        right
        have := viaCatch ("Failed to generate query: " ++ eg2)
          [.llmGen 1 q, .sleep 500, .llmGen 2 q]
        simpa [queryEngine.answerUserQuery, queryEngine.genLoop, hg1, hg2]
          using this
      case ok =>
        rcases he1 : execO (queryEngine.optimizeCypher g) 1 with e1 | d1
        · rcases he2 : execO (queryEngine.optimizeCypher g) 2 with e2 | d2
          · rcases he3 : execO (queryEngine.optimizeCypher g) 3 with e3 | d3
            · right
              obtain ⟨m, hm, hcases⟩ := queryEngine.classifyCatch_cases α
                ("Query execution failed after 3 attempts: " ++ e3)
              refine ⟨m, "Query execution failed after 3 attempts: " ++ e3, ?_,
                hcases⟩
              simp [queryEngine.answerUserQuery, queryEngine.genLoop,
                queryEngine.execLoop, hg1, hg2, he1, he2, he3, hm]
            · rcases hv : verbO (queryEngine.userPrompt α jsonStr q d3)
                  with ev | av
              · right
                obtain ⟨m, hm, hcases⟩ := queryEngine.classifyCatch_cases α ev
                refine ⟨m, ev, ?_, hcases⟩
                simp [queryEngine.answerUserQuery, queryEngine.genLoop,
                  queryEngine.execLoop, queryEngine.verbalizeAnswer,
                  hg1, hg2, he1, he2, he3, hv, hm]
              · left
                refine ⟨queryEngine.optimizeCypher g, d3, av, ?_,
                  Or.inr (Or.inr he3), hv⟩
                simp [queryEngine.answerUserQuery, queryEngine.genLoop,
                  queryEngine.execLoop, queryEngine.verbalizeAnswer,
                  hg1, hg2, he1, he2, he3, hv]
          · rcases hv : verbO (queryEngine.userPrompt α jsonStr q d2)
                with ev | av
            · right
              obtain ⟨m, hm, hcases⟩ := queryEngine.classifyCatch_cases α ev
              refine ⟨m, ev, ?_, hcases⟩
              simp [queryEngine.answerUserQuery, queryEngine.genLoop,
                queryEngine.execLoop, queryEngine.verbalizeAnswer,
                hg1, hg2, he1, he2, hv, hm]
            · left
              refine ⟨queryEngine.optimizeCypher g, d2, av, ?_,
                Or.inr (Or.inl he2), hv⟩
              simp [queryEngine.answerUserQuery, queryEngine.genLoop,
                queryEngine.execLoop, queryEngine.verbalizeAnswer,
                hg1, hg2, he1, he2, hv]
        · rcases hv : verbO (queryEngine.userPrompt α jsonStr q d1)
              with ev | av
          · right
            obtain ⟨m, hm, hcases⟩ := queryEngine.classifyCatch_cases α ev
            refine ⟨m, ev, ?_, hcases⟩
            simp [queryEngine.answerUserQuery, queryEngine.genLoop,
              queryEngine.execLoop, queryEngine.verbalizeAnswer,
              hg1, hg2, he1, hv, hm]
          · left
            refine ⟨queryEngine.optimizeCypher g, d1, av, ?_,
              Or.inl he1, hv⟩
            simp [queryEngine.answerUserQuery, queryEngine.genLoop,
              queryEngine.execLoop, queryEngine.verbalizeAnswer,
              hg1, hg2, he1, hv]
    case ok =>
      rcases he1 : execO (queryEngine.optimizeCypher g) 1 with e1 | d1
      · rcases he2 : execO (queryEngine.optimizeCypher g) 2 with e2 | d2
        · rcases he3 : execO (queryEngine.optimizeCypher g) 3 with e3 | d3
          · right
            obtain ⟨m, hm, hcases⟩ := queryEngine.classifyCatch_cases α
              ("Query execution failed after 3 attempts: " ++ e3)
            refine ⟨m, "Query execution failed after 3 attempts: " ++ e3, ?_,
              hcases⟩
            simp [queryEngine.answerUserQuery, queryEngine.genLoop,
              queryEngine.execLoop, hg1, he1, he2, he3, hm]
          · rcases hv : verbO (queryEngine.userPrompt α jsonStr q d3)
                with ev | av
            · right
              obtain ⟨m, hm, hcases⟩ := queryEngine.classifyCatch_cases α ev
              refine ⟨m, ev, ?_, hcases⟩
              simp [queryEngine.answerUserQuery, queryEngine.genLoop,
                queryEngine.execLoop, queryEngine.verbalizeAnswer,
                hg1, he1, he2, he3, hv, hm]
            · left
              refine ⟨queryEngine.optimizeCypher g, d3, av, ?_,
                Or.inr (Or.inr he3), hv⟩
              simp [queryEngine.answerUserQuery, queryEngine.genLoop,
                queryEngine.execLoop, queryEngine.verbalizeAnswer,
                hg1, he1, he2, he3, hv]
        · rcases hv : verbO (queryEngine.userPrompt α jsonStr q d2)
              with ev | av
          · right
            obtain ⟨m, hm, hcases⟩ := queryEngine.classifyCatch_cases α ev
            refine ⟨m, ev, ?_, hcases⟩
            simp [queryEngine.answerUserQuery, queryEngine.genLoop,
              queryEngine.execLoop, queryEngine.verbalizeAnswer,
              hg1, he1, he2, hv, hm]
          · left
            refine ⟨queryEngine.optimizeCypher g, d2, av, ?_,
              Or.inr (Or.inl he2), hv⟩
            simp [queryEngine.answerUserQuery, queryEngine.genLoop,
              queryEngine.execLoop, queryEngine.verbalizeAnswer,
              hg1, he1, he2, hv]
      · rcases hv : verbO (queryEngine.userPrompt α jsonStr q d1)
            with ev | av
        · right
          obtain ⟨m, hm, hcases⟩ := queryEngine.classifyCatch_cases α ev
          refine ⟨m, ev, ?_, hcases⟩
          simp [queryEngine.answerUserQuery, queryEngine.genLoop,
            queryEngine.execLoop, queryEngine.verbalizeAnswer,
            hg1, he1, hv, hm]
        · left
          refine ⟨queryEngine.optimizeCypher g, d1, av, ?_,
            Or.inl he1, hv⟩
          simp [queryEngine.answerUserQuery, queryEngine.genLoop,
            queryEngine.execLoop, queryEngine.verbalizeAnswer,
            hg1, he1, hv]
  · intro schemaO genO execO narrO
    rcases schemaO with es | u
    · right
      obtain ⟨ans, hb, hcases⟩ := queryUnderstandingV1.catchBlock_cases es
      exact ⟨ans, es, by simpa [queryUnderstandingV1.answerUserQuery] using hb,
        hcases⟩
    · rcases genO with eg | g
      · right
        obtain ⟨ans, hb, hcases⟩ := queryUnderstandingV1.catchBlock_cases eg
        exact ⟨ans, eg, by simpa [queryUnderstandingV1.answerUserQuery] using hb,
          hcases⟩
      · rcases he : execO g.cypher g.parameters with ee | d
        · right
          obtain ⟨ans, hb, hcases⟩ := queryUnderstandingV1.catchBlock_cases ee
          refine ⟨ans, ee, ?_, hcases⟩
          simp [queryUnderstandingV1.answerUserQuery, he, hb]
        · rcases hn : queryUnderstandingV1.narrateResults (some d) g.expectsResults
              with sa | d'
          · left
            refine ⟨sa, g, d, rfl, he, ?_⟩
            simp [queryUnderstandingV1.answerUserQuery, he, hn]
          · rcases hno : narrO d' with en | an
            · right
              obtain ⟨ans, hb, hcases⟩ := queryUnderstandingV1.catchBlock_cases en
              refine ⟨ans, en, ?_, hcases⟩
              simp [queryUnderstandingV1.answerUserQuery, he, hn, hno, hb]
            · left
              refine ⟨an, g, d, rfl, he, ?_⟩
              simp [queryUnderstandingV1.answerUserQuery, he, hn, hno]

theorem isPfxOf_append_extend (pat : List Char) :
    ∀ (A B : List Char), isPfxOf pat A = true → isPfxOf pat (A ++ B) = true := by
  induction pat with
  | nil => intro A B _; simp [isPfxOf]
  | cons p ps ih =>
    intro A B hA
    cases A with
    | nil => simp [isPfxOf] at hA
    | cons a A' =>
      simp only [isPfxOf, Bool.and_eq_true] at hA
      simp only [List.cons_append, isPfxOf, Bool.and_eq_true]
      exact ⟨hA.1, ih A' B hA.2⟩

theorem hasSubL_append_extend (pat A B : List Char)
    (h : hasSubL pat A = true) : hasSubL pat (A ++ B) = true := by
  induction A with
  | nil =>
    simp [hasSubL] at h
    subst h
    cases B with
    | nil => simp [hasSubL]
    | cons b B' => simp [hasSubL, isPfxOf]
  | cons c r ih =>
    simp only [hasSubL, Bool.or_eq_true] at h
    simp only [List.cons_append, hasSubL, Bool.or_eq_true]
    cases h with
    | inl h =>
      left
      have := isPfxOf_append_extend pat (c :: r) B h
      simpa using this
    | inr h => right; exact ih h

/-- C8: for a result set of more than 50 rows, the rows embedded in the
verbalization prompt are at most 50 — the first 50, or the first 25
(`MAX_RESULTS / 2`, a further halving) when their serialized JSON exceeds
the 50,000-character budget — the truncation note contains the number of
rows actually shown, and the note is appended to the prompt after the
serialized rows. -/
theorem verbalizeAnswer_truncates_and_notes (α : Type)
    (jsonStr : List α → String) (data : List α) (q : String)
    (h : data.length > 50) :
    (queryEngine.truncateForPrompt α jsonStr data).1.length ≤ 50 ∧
    (if (jsonStr (data.take 50)).length > 50000 then
      (queryEngine.truncateForPrompt α jsonStr data).1 = data.take 25
    else
      (queryEngine.truncateForPrompt α jsonStr data).1 = data.take 50) ∧
    hasSubS (queryEngine.truncateForPrompt α jsonStr data).2
      ("Showing " ++
        toString (queryEngine.truncateForPrompt α jsonStr data).1.length)
      = true ∧
    queryEngine.userPrompt α jsonStr q data
      = "User question: " ++ q ++ "\n\nDatabase result:\n" ++
        jsonStr (queryEngine.truncateForPrompt α jsonStr data).1 ++
        (queryEngine.truncateForPrompt α jsonStr data).2 := by
  have htake50 : (data.take 50).length = 50 := by
    rw [List.length_take]
    omega
  have htp : queryEngine.truncateForPrompt α jsonStr data
      = if (jsonStr (data.take 50)).length > queryEngine.MAX_JSON_LENGTH then
          ((data.take 50).take (queryEngine.MAX_RESULTS / 2),
           "\n\n[Note: Results truncated due to size. Showing " ++
             toString ((data.take 50).take (queryEngine.MAX_RESULTS / 2)).length
             ++ " results]")
        else
          (data.take 50,
           "\n\n[Note: Showing " ++ toString queryEngine.MAX_RESULTS ++ " of " ++
             toString data.length ++ " total results]") := by
    rw [queryEngine.truncateForPrompt]
    have hgt : data.length > queryEngine.MAX_RESULTS := h
    simp only [queryEngine.MAX_RESULTS, queryEngine.MAX_JSON_LENGTH] at hgt ⊢
    rw [if_pos hgt, if_pos hgt]
  by_cases hj : (jsonStr (data.take 50)).length > 50000
  · have hj' : (jsonStr (data.take 50)).length > queryEngine.MAX_JSON_LENGTH := hj
    have htake25 : (data.take 50).take (queryEngine.MAX_RESULTS / 2)
        = data.take 25 := by
      rw [List.take_take]
      norm_num [queryEngine.MAX_RESULTS]
    have hlen25 : (data.take 25).length = 25 := by
      rw [List.length_take]
      omega
    rw [htp, if_pos hj']
    refine ⟨?_, ?_, ?_, ?_⟩
    · simp only [htake25, hlen25]
      omega
    · rw [if_pos hj]
      simp [htake25]
    · simp only [htake25, hlen25]
      show hasSubS ("\n\n[Note: Results truncated due to size. Showing " ++
        toString (25 : Nat) ++ " results]") ("Showing " ++ toString (25 : Nat))
        = true
      decide
    · simp only [queryEngine.userPrompt, htp, if_pos hj']
  · have hj' : ¬ ((jsonStr (data.take 50)).length > queryEngine.MAX_JSON_LENGTH) := hj
    rw [htp, if_neg hj']
    refine ⟨?_, ?_, ?_, ?_⟩
    · rw [htake50]
    · rw [if_neg hj]
    · rw [htake50]
      show hasSubS ("\n\n[Note: Showing " ++ toString queryEngine.MAX_RESULTS
        ++ " of " ++ toString data.length ++ " total results]")
        ("Showing " ++ toString (50 : Nat)) = true
      rw [hasSubS]
      have hsplit : ("\n\n[Note: Showing " ++ toString queryEngine.MAX_RESULTS
          ++ " of " ++ toString data.length ++ " total results]").data
          = ("\n\n[Note: Showing " ++ toString queryEngine.MAX_RESULTS
              ++ " of ").data ++
            (toString data.length ++ " total results]").data := by
        simp [String.data_append]
      rw [hsplit]
      apply hasSubL_append_extend
      decide
    · simp only [queryEngine.userPrompt, htp, if_neg hj']

/-- C8 witness: 51 rows with an empty serializer exercise the theorem. -/
theorem verbalizeAnswer_truncates_witness :
    (queryEngine.truncateForPrompt Nat (fun _ => "") (List.replicate 51 0)).1.length ≤ 50 ∧
    (if ((fun (_ : List Nat) => "") ((List.replicate 51 0).take 50)).length > 50000 then
      (queryEngine.truncateForPrompt Nat (fun _ => "") (List.replicate 51 0)).1
        = (List.replicate 51 0).take 25
    else
      (queryEngine.truncateForPrompt Nat (fun _ => "") (List.replicate 51 0)).1
        = (List.replicate 51 0).take 50) ∧
    hasSubS (queryEngine.truncateForPrompt Nat (fun _ => "") (List.replicate 51 0)).2
      ("Showing " ++
        toString (queryEngine.truncateForPrompt Nat (fun _ => "") (List.replicate 51 0)).1.length)
      = true ∧
    queryEngine.userPrompt Nat (fun _ => "") "q" (List.replicate 51 0)
      = "User question: " ++ "q" ++ "\n\nDatabase result:\n" ++
        (fun (_ : List Nat) => "") (queryEngine.truncateForPrompt Nat (fun _ => "") (List.replicate 51 0)).1 ++
        (queryEngine.truncateForPrompt Nat (fun _ => "") (List.replicate 51 0)).2 :=
  verbalizeAnswer_truncates_and_notes Nat (fun _ => "") (List.replicate 51 0) "q"
    (by decide)

/-- C4 (amended): the schema cache is plain result-memoization, not
single-flight.  Once the cache is populated every further `getSchema` call
returns immediately with the identical cached descriptor instance and issues
no discovery pass, and a finishing call caches exactly the instance it
returns; but `n` concurrent calls that all enter before the first discovery
completes issue `n` separate discovery passes (one each), not one. -/
theorem getSchema_sequential_caching :
    (∀ (s : schemaMetadata.SchemaState) (d : Nat), s.cache = some d →
      schemaMetadata.getSchemaStart s = (s, some d)) ∧
    (∀ s : schemaMetadata.SchemaState,
      ((schemaMetadata.getSchemaFinish s).1).cache
        = some (schemaMetadata.getSchemaFinish s).2) ∧
    (∀ s : schemaMetadata.SchemaState, s.cache = none → ∀ n,
      (schemaMetadata.startN n s).discoveries = s.discoveries + n) := by
  refine ⟨?_, ?_, ?_⟩
  · intro s d h
    simp [schemaMetadata.getSchemaStart, h]
  · intro s
    simp [schemaMetadata.getSchemaFinish]
  · intro s h n
    induction n generalizing s with
    | zero => simp [schemaMetadata.startN]
    | succ n ih =>
      have hstart : (schemaMetadata.getSchemaStart s).1
          = { s with discoveries := s.discoveries + 1 } := by
        simp [schemaMetadata.getSchemaStart, h]
      have hcache : ({ s with discoveries := s.discoveries + 1 } :
          schemaMetadata.SchemaState).cache = none := h
      rw [schemaMetadata.startN, hstart, ih _ hcache]
      simp
      omega

/-- C4 witness: the theorem applied to the initial state and two sequenced
calls: the second caller, arriving after the first finished, receives the
cached instance with no second discovery. -/
theorem getSchema_sequential_caching_witness :
    schemaMetadata.getSchemaStart
        (schemaMetadata.getSchemaFinish
          (schemaMetadata.getSchemaStart schemaMetadata.initialState).1).1
      = ((schemaMetadata.getSchemaFinish
            (schemaMetadata.getSchemaStart schemaMetadata.initialState).1).1,
         some 0) := by
  have h := getSchema_sequential_caching.1
    (schemaMetadata.getSchemaFinish
      (schemaMetadata.getSchemaStart schemaMetadata.initialState).1).1 0
    (by decide)
  exact h

/-- C4 counterexample: two calls that both enter `getSchema` before either
discovery completes issue two discovery passes, and the two callers receive
distinct descriptor instances — not one shared pass with an identical
instance, as the claim states for N = 2. -/
theorem getSchema_concurrent_duplicate_discovery :
    schemaMetadata.concurrentTwoRun.1.discoveries = 2 ∧
    schemaMetadata.concurrentTwoRun.2.1 ≠ schemaMetadata.concurrentTwoRun.2.2 := by
  constructor
  · decide
  · decide

/-- C5: on an empty result set `narrateResults` returns one of two fixed
messages chosen by the translator's `expectsResults` signal — the
not-tracked message exactly when `expectsResults === false`, the generic
no-results message otherwise (also for a missing flag or a `null` result) —
and the two message strings differ. -/
theorem narrateResults_empty_two_messages :
    queryUnderstandingV1.narrateResults none (some false)
      = .direct queryUnderstandingV1.notTrackedMessage ∧
    queryUnderstandingV1.narrateResults (some []) (some false)
      = .direct queryUnderstandingV1.notTrackedMessage ∧
    queryUnderstandingV1.narrateResults (some []) (some true)
      = .direct queryUnderstandingV1.noResultsMessage ∧
    queryUnderstandingV1.narrateResults (some []) none
      = .direct queryUnderstandingV1.noResultsMessage ∧
    queryUnderstandingV1.narrateResults none none
      = .direct queryUnderstandingV1.noResultsMessage ∧
    queryUnderstandingV1.notTrackedMessage ≠ queryUnderstandingV1.noResultsMessage := by
  refine ⟨rfl, rfl, rfl, rfl, rfl, by decide⟩

/-- C7 counterexample: a non-empty result set of a single row with two
columns (a count plus a label) is *not* formatted directly — it is sent to
the text-generation backend, contrary to the claim's "single or dual
column". -/
theorem narrateResults_dual_column_uses_llm :
    queryUnderstandingV1.narrateResults
        (some [[("count", queryUnderstandingV1.JsVal.num 5),
                ("label", queryUnderstandingV1.JsVal.str "battery")]])
        (some true)
      = queryUnderstandingV1.NarrateOut.llm
          [[("count", queryUnderstandingV1.JsVal.num 5),
            ("label", queryUnderstandingV1.JsVal.str "battery")]] := rfl

/-- C7 (amended): for a non-empty result set, `narrateResults` answers
directly (without invoking the text-generation backend) exactly when the
set is a single row with a single column whose value is a number or a
boolean; dual-column rows, string values and larger sets all go through the
backend. -/
theorem narrateResults_direct_iff_single_scalar
    (d : List queryUnderstandingV1.Row) (e : Option Bool) (hne : d ≠ []) :
    (∃ s, queryUnderstandingV1.narrateResults (some d) e
        = queryUnderstandingV1.NarrateOut.direct s) ↔
    ((∃ k n, d = [[(k, queryUnderstandingV1.JsVal.num n)]]) ∨
     (∃ k b, d = [[(k, queryUnderstandingV1.JsVal.bool b)]]) ) := by
  rcases d with _ | ⟨row, rest⟩
  · exact absurd rfl hne
  rcases rest with _ | ⟨row2, rest2⟩
  · rcases row with _ | ⟨⟨k, v⟩, rowrest⟩
    · constructor
      · rintro ⟨s, hs⟩
        simp [queryUnderstandingV1.narrateResults] at hs
      · rintro (⟨k, n, hk⟩ | ⟨k, b, hk⟩) <;> simp at hk
    · rcases rowrest with _ | ⟨p2, rr2⟩
      · cases v with
        | num n =>
          constructor
          · intro _
            exact Or.inl ⟨k, n, rfl⟩
          · intro _
            exact ⟨"The " ++ queryUnderstandingV1.underscoresToSpaces k ++
              " is " ++ toString n ++ ".", rfl⟩
        | bool b =>
          constructor
          · intro _
            exact Or.inr ⟨k, b, rfl⟩
          · intro _
            exact ⟨if b then "Yes, this data exists in the knowledge graph."
              else "No, this data doesn't exist in the knowledge graph.", rfl⟩
        | str sv =>
          constructor
          · rintro ⟨s, hs⟩
            simp [queryUnderstandingV1.narrateResults] at hs
          · rintro (⟨k', n', hk⟩ | ⟨k', b', hk⟩) <;> exact absurd hk (by simp)
        | other =>
          constructor
          · rintro ⟨s, hs⟩
            simp [queryUnderstandingV1.narrateResults] at hs
          · rintro (⟨k', n', hk⟩ | ⟨k', b', hk⟩) <;> exact absurd hk (by simp)
      · constructor
        · rintro ⟨s, hs⟩
          simp [queryUnderstandingV1.narrateResults] at hs
        · rintro (⟨k', n', hk⟩ | ⟨k', b', hk⟩) <;> exact absurd hk (by simp)
  · constructor
    · rintro ⟨s, hs⟩
      simp [queryUnderstandingV1.narrateResults] at hs
    · rintro (⟨k', n', hk⟩ | ⟨k', b', hk⟩) <;> exact absurd hk (by simp)

/-- C7 witness: a single-row single-column count is answered directly. -/
theorem narrateResults_direct_iff_witness :
    (∃ s, queryUnderstandingV1.narrateResults
        (some [[("product_count", queryUnderstandingV1.JsVal.num 3)]]) (some true)
        = queryUnderstandingV1.NarrateOut.direct s) ↔
    ((∃ k n, [[("product_count", queryUnderstandingV1.JsVal.num 3)]]
        = [[(k, queryUnderstandingV1.JsVal.num n)]]) ∨
     (∃ k b, [[("product_count", queryUnderstandingV1.JsVal.num 3)]]
        = [[(k, queryUnderstandingV1.JsVal.bool b)]]) ) :=
  narrateResults_direct_iff_single_scalar
    [[("product_count", queryUnderstandingV1.JsVal.num 3)]] (some true)
    (by decide)

/-- C6 counterexample: `ISSUE_TIMELINE` is in the enumerated intent set and
is reachable from the classifier, yet `INTENT_QUERIES` maps it to no query
at all — so not every enumerated intent is mapped to exactly one fixed
query. -/
theorem intent_timeline_has_no_query :
    queryUnderstandingV2.INTENT_QUERIES
        queryUnderstandingV2.Intent.ISSUE_TIMELINE = none ∧
    queryUnderstandingV2.classifyIntent "when did this issue start?"
      = queryUnderstandingV2.Intent.ISSUE_TIMELINE := by
  constructor
  · rfl
  · decide

/-- C6 (amended): rule-based intent classification is a total deterministic
function of the lower-cased question text evaluated in a fixed priority
order with `ISSUE_SEVERITY` as the default fallback (e.g. a question with no
keywords classifies as the default); but only 10 of the 16 enumerated
intents are mapped to a fixed weighted query — the other six
(`ISSUE_TIMELINE`, `SOLUTION_SUCCESS_RATE`, `PRODUCT_COMPARISON`,
`PRODUCT_IMPROVEMENT`, `USER_CONTRIBUTION`, `COMMON_PATTERNS`) have no
catalog entry and are answered with an `intent not supported` error. -/
theorem classifyIntent_total_queries_partial :
    (∀ q1 q2 : String, lowerS q1 = lowerS q2 →
      queryUnderstandingV2.classifyIntent q1
        = queryUnderstandingV2.classifyIntent q2) ∧
    queryUnderstandingV2.classifyIntent "hello"
      = queryUnderstandingV2.Intent.ISSUE_SEVERITY ∧
    (∀ i : queryUnderstandingV2.Intent,
      (queryUnderstandingV2.INTENT_QUERIES i).isSome = true ↔
        i ∈ ([.ISSUE_SEVERITY, .ISSUE_TRENDS, .PRODUCT_ISSUES,
          .SOLUTION_EFFECTIVENESS, .SOLUTION_FOR_ISSUE, .PRODUCT_HEALTH,
          .EXPERT_CONSENSUS, .SOURCE_RELIABILITY, .EXPERIMENTAL_SOLUTIONS,
          .ISSUE_ROOT_CAUSE] : List queryUnderstandingV2.Intent)) := by
  refine ⟨?_, by decide, ?_⟩
  · intro q1 q2 h
    unfold queryUnderstandingV2.classifyIntent
    rw [h]
  · intro i
    cases i <;> simp [queryUnderstandingV2.INTENT_QUERIES]

/-- C10: in every successful (non-error) result of either
`answerUserQuery`, the confidence is binary — exactly 1 when the executed
query returned at least one row, exactly 0 when it returned zero rows, and
never an intermediate value. -/
theorem confidence_is_binary :
    (∀ (schemaO : Except String Unit)
        (genO : Except String queryUnderstandingV1.GenOut)
        (execO : String → List (String × String) →
          Except String (List queryUnderstandingV1.Row))
        (narrO : List queryUnderstandingV1.Row → Except String String)
        (a : String) (d : List queryUnderstandingV1.Row) (cy re : String)
        (conf : ℚ),
      queryUnderstandingV1.answerUserQuery schemaO genO execO narrO
          = queryUnderstandingV1.V1Result.success a d cy re conf →
      ((conf = 0 ∨ conf = 1) ∧ (conf = 1 ↔ d ≠ []) ∧ (conf = 0 ↔ d = []))) ∧
    (∀ (α : Type)
        (extractO : String → queryUnderstandingV2.Intent →
          queryUnderstandingV2.Params)
        (execO : String → queryUnderstandingV2.Params → Except String (List α))
        (narrO : List α → Except String String) (q a cy : String)
        (i : queryUnderstandingV2.Intent) (m : String) (conf : ℚ) (d : List α),
      queryUnderstandingV2.answerUserQuery α extractO execO narrO q
          = queryUnderstandingV2.V2Result.success a cy i m conf d →
      ((conf = 0 ∨ conf = 1) ∧ (conf = 1 ↔ d ≠ []) ∧ (conf = 0 ↔ d = []))) := by
  have key : ∀ {β : Type} (d : List β),
      ((if d.length > 0 then (1 : ℚ) else 0) = 0 ∨
        (if d.length > 0 then (1 : ℚ) else 0) = 1) ∧
      ((if d.length > 0 then (1 : ℚ) else 0) = 1 ↔ d ≠ []) ∧
      ((if d.length > 0 then (1 : ℚ) else 0) = 0 ↔ d = []) := by
    intro β d
    by_cases hd : d = []
    · subst hd
      norm_num
    · have hl : d.length > 0 := List.length_pos.mpr hd
      simp only [hl, if_pos]
      norm_num [hd]
  constructor
  · intro schemaO genO execO narrO a d cy re conf h
    rcases schemaO with es | u
    · obtain ⟨ans, hb, _⟩ := queryUnderstandingV1.catchBlock_cases es
      rw [queryUnderstandingV1.answerUserQuery, hb] at h
      exact absurd h (by simp)
    · rcases genO with eg | g
      · obtain ⟨ans, hb, _⟩ := queryUnderstandingV1.catchBlock_cases eg
        rw [queryUnderstandingV1.answerUserQuery, hb] at h
        exact absurd h (by simp)
      · rcases he : execO g.cypher g.parameters with ee | data
        · obtain ⟨ans, hb, _⟩ := queryUnderstandingV1.catchBlock_cases ee
          simp only [queryUnderstandingV1.answerUserQuery, he, hb] at h
          exact absurd h (by simp)
        · rcases hn : queryUnderstandingV1.narrateResults (some data)
              g.expectsResults with sa | d'
          · simp only [queryUnderstandingV1.answerUserQuery, he, hn] at h
            obtain ⟨-, hd, -, -, hc⟩ :=
              queryUnderstandingV1.V1Result.success.inj h
            subst hd
            rw [← hc]
            exact key _
          · rcases hno : narrO d' with en | an
            · obtain ⟨ans, hb, _⟩ := queryUnderstandingV1.catchBlock_cases en
              simp only [queryUnderstandingV1.answerUserQuery, he, hn, hno,
                hb] at h
              exact absurd h (by simp)
            · simp only [queryUnderstandingV1.answerUserQuery, he, hn, hno] at h
              obtain ⟨-, hd, -, -, hc⟩ :=
                queryUnderstandingV1.V1Result.success.inj h
              subst hd
              rw [← hc]
              exact key _
  · intro α extractO execO narrO q a cy i m conf d h
    rcases hq : queryUnderstandingV2.INTENT_QUERIES
        (queryUnderstandingV2.classifyIntent q) with _ | cypher
    · simp only [queryUnderstandingV2.answerUserQuery, hq] at h
      exact absurd h (by simp)
    · rcases he : execO cypher (extractO q (queryUnderstandingV2.classifyIntent q))
          with ee | data
      · simp only [queryUnderstandingV2.answerUserQuery, hq, he] at h
        exact absurd h (by simp)
      · by_cases hemp : data.isEmpty
        · simp only [queryUnderstandingV2.answerUserQuery, hq, he, hemp,
            if_true] at h
          obtain ⟨-, -, -, -, hc, hd⟩ :=
            queryUnderstandingV2.V2Result.success.inj h
          subst hd
          rw [← hc]
          norm_num
        · rcases hno : narrO data with en | an
          · simp only [queryUnderstandingV2.answerUserQuery, hq, he, hemp,
              hno] at h
            exact absurd h (by simp)
          · simp only [queryUnderstandingV2.answerUserQuery, hq, he, hemp,
              hno] at h
            obtain ⟨-, -, -, -, hc, hd⟩ :=
              queryUnderstandingV2.V2Result.success.inj h
            subst hd
            rw [← hc]
            have hne : data ≠ [] := by
              intro hcontra
              subst hcontra
              simp at hemp
            norm_num [hne]
